import Mathlib

/-!
Verification of the MELD restraint transformer
(`meld/runner/transform/restraints/meld.py`).

The module translates declarative restraint descriptions into calls against
an external force engine (`MeldForce`) and keeps the engine state
synchronized as `(alpha, timestep)` evolve.  We shallowly embed the module:

* numeric values are rationals (`ℚ`); atom indices, bin counts and timesteps
  are naturals; `num_active` counts are integers (Python ints);
* the external `MeldForce` engine is modelled as a pure record of its
  per-kind creation-call parameter lists plus group/collection entries; each
  `add...` call appends and returns the index the engine would assign;
* per-step `modify...` calls are modelled as an explicit list of
  `EngineCall` values produced by `update`, applied to an engine state by
  `applyCall`;
* Python exceptions (`RuntimeError` for an unknown restraint kind, and the
  `NameError` reachable through the leaked loop variable in
  `add_interactions`) become `Except String`.
-/

/-- A positional argument passed to the external engine: an integer-like
scalar, a numeric scalar, a numeric vector, or an index vector. -/
inductive PVal
  | nat (n : ℕ)
  | int (n : ℤ)
  | rat (q : ℚ)
  | vec (xs : List ℚ)
  | idxs (xs : List ℕ)
deriving DecidableEq

/-- The six restraint kinds known to `_add_meld_restraint`. -/
inductive Kind
  | distance
  | hyperbolic
  | torsion
  | distProf
  | torsProf
  | gmm
deriving DecidableEq

/-- `DistanceRestraint`: two atoms, four alpha-dependent bounds, force
constant `k`, and the `scaler`/`ramp` schedule functions. -/
structure DistanceRestraint where
  atom_index_1 : ℕ
  atom_index_2 : ℕ
  r1 : ℚ → ℚ
  r2 : ℚ → ℚ
  r3 : ℚ → ℚ
  r4 : ℚ → ℚ
  k : ℚ
  scaler : ℚ → ℚ
  ramp : ℕ → ℚ

/-- `HyperbolicDistanceRestraint`: two atoms, four constant bounds, force
constant `k`, an `asymptote`, and the schedule functions. -/
structure HyperbolicDistanceRestraint where
  atom_index_1 : ℕ
  atom_index_2 : ℕ
  r1 : ℚ
  r2 : ℚ
  r3 : ℚ
  r4 : ℚ
  k : ℚ
  asymptote : ℚ
  scaler : ℚ → ℚ
  ramp : ℕ → ℚ

/-- `TorsionRestraint`: four atoms, equilibrium angle `phi`, tolerance
`delta_phi`, force constant `k`, and the schedule functions. -/
structure TorsionRestraint where
  atom_index_1 : ℕ
  atom_index_2 : ℕ
  atom_index_3 : ℕ
  atom_index_4 : ℕ
  phi : ℚ
  delta_phi : ℚ
  k : ℚ
  scaler : ℚ → ℚ
  ramp : ℕ → ℚ

/-- `DistProfileRestraint`: two atoms, a distance window, `n_bins` spline
rows with 4 coefficient columns (`spline_params`), a `scale_factor`, and the
schedule functions.  The 2D coefficient array is modelled as a function of
(row, column). -/
structure DistProfileRestraint where
  atom_index_1 : ℕ
  atom_index_2 : ℕ
  r_min : ℚ
  r_max : ℚ
  n_bins : ℕ
  spline_params : ℕ → ℕ → ℚ
  scale_factor : ℚ
  scaler : ℚ → ℚ
  ramp : ℕ → ℚ

/-- `TorsProfileRestraint`: eight atoms, `n_bins` spline rows with 16
coefficient columns, a `scale_factor`, and the schedule functions. -/
structure TorsProfileRestraint where
  atom_index_1 : ℕ
  atom_index_2 : ℕ
  atom_index_3 : ℕ
  atom_index_4 : ℕ
  atom_index_5 : ℕ
  atom_index_6 : ℕ
  atom_index_7 : ℕ
  atom_index_8 : ℕ
  n_bins : ℕ
  spline_params : ℕ → ℕ → ℚ
  scale_factor : ℚ
  scaler : ℚ → ℚ
  ramp : ℕ → ℚ

/-- `GMMDistanceRestraint`: distance and component counts, member atoms,
mixture weights, a means array (component × distance) and a precision
stack (component × distance × distance), plus the schedule functions. -/
structure GMMDistanceRestraint where
  n_distances : ℕ
  n_components : ℕ
  atoms : List ℕ
  weights : List ℚ
  means : ℕ → ℕ → ℚ
  precisions : ℕ → ℕ → ℕ → ℚ
  scaler : ℚ → ℚ
  ramp : ℕ → ℚ

/-- A restraint as seen by the transformer.  The six known selectable kinds
are explicit; `unknown` models a `SelectableRestraint` subclass the
dispatch in `_add_meld_restraint` does not recognize (it falls into the
final `else: raise RuntimeError` branch); `nonSelectable` models a
restraint that is not a `SelectableRestraint` at all, so the constructor's
`isinstance` filter never claims it.  (The class hierarchy itself lives in
`meld.system.restraints`, outside this module; these two extra
constructors are modelled from the spec's description of that boundary.) -/
inductive Restraint
  | distance (r : DistanceRestraint)
  | hyperbolic (r : HyperbolicDistanceRestraint)
  | torsion (r : TorsionRestraint)
  | distProf (r : DistProfileRestraint)
  | torsProf (r : TorsProfileRestraint)
  | gmm (r : GMMDistanceRestraint)
  | unknown (tag : ℕ)
  | nonSelectable (tag : ℕ)

/-- Modelled from the spec: `isinstance(r, restraints.SelectableRestraint)`.
The six known kinds are selectable, as is an unrecognized selectable
subclass; a `nonSelectable` restraint is not. -/
def Restraint.isSelectable : Restraint → Bool
  | .nonSelectable _ => false
  | _ => true

/-- True exactly for the six kinds `_add_meld_restraint` dispatches on. -/
def Restraint.isKnown : Restraint → Bool
  | .unknown _ => false
  | .nonSelectable _ => false
  | _ => true

/-- A `num_active` selector: either a literal integer or a reference to a
sampled parameter (`param_sampling.Parameter`). -/
inductive NumActive
  | lit (n : ℤ)
  | param (p : ℕ)

/-- `RestraintGroup`: member restraints plus a `num_active` selector. -/
structure RestraintGroup where
  restraints : List Restraint
  num_active : NumActive

/-- `SelectivelyActiveCollection`: member groups plus its own
`num_active` selector. -/
structure SelectivelyActiveCollection where
  groups : List RestraintGroup
  num_active : NumActive

/-- The parameter-sampling collaborator: `extract_value(param, parameters)`
returns a numeric value.  Parameter references and the opaque
`state.parameters` handle are both modelled as naturals. -/
structure ParamManager where
  extract_value : ℕ → ℕ → ℚ

/-- The simulation state, exposing only its `.parameters` handle. -/
structure SimState where
  parameters : ℕ

/-- Python `int()` truncation toward zero of a rational. -/
def pyInt (q : ℚ) : ℤ :=
  Int.sign q.num * (q.num.natAbs / q.den : ℕ)

/-- Column `j` of a 2D coefficient array with `rows` rows
(the slice `spline_params[:, j]`). -/
def col (sp : ℕ → ℕ → ℚ) (rows j : ℕ) : List ℚ :=
  (List.range rows).map fun r => sp r j

/-- `list(means.flatten())` for a (components × distances) means array:
row-major flattening, components outer. -/
def flattenMeans (means : ℕ → ℕ → ℚ) (nc nd : ℕ) : List ℚ :=
  (List.range nc).flatMap fun c => (List.range nd).map fun d => means c d

/-- `_setup_precisions(precisions, n_distances, n_conditions)`: flatten a
precision stack into its diagonals (component-major, then distance) and
its strict upper-triangle entries (component outer, then `j`, then
`k` from `j+1`). -/
def _setup_precisions (precisions : ℕ → ℕ → ℕ → ℚ)
    (n_distances n_conditions : ℕ) : List ℚ × List ℚ :=
  let diags := (List.range n_conditions).flatMap fun i =>
    (List.range n_distances).map fun j => precisions i j j
  let off_diags := (List.range n_conditions).flatMap fun i =>
    (List.range n_distances).flatMap fun j =>
      (List.range' (j + 1) (n_distances - (j + 1))).map fun k =>
        precisions i j k
  (diags, off_diags)

/-- Positional arguments of `meld_force.addDistanceRestraint` as issued by
`_add_meld_restraint` (creation path). -/
def distAddParams (r : DistanceRestraint) (alpha : ℚ) (timestep : ℕ) :
    List PVal :=
  let scale := r.scaler alpha * r.ramp timestep
  [.nat r.atom_index_1, .nat r.atom_index_2, .rat (r.r1 alpha),
   .rat (r.r2 alpha), .rat (r.r3 alpha), .rat (r.r4 alpha),
   .rat (r.k * scale)]

/-- Positional arguments of `meld_force.addHyperbolicDistanceRestraint`
as issued by `_add_meld_restraint` (creation path). -/
def hyperAddParams (r : HyperbolicDistanceRestraint) (alpha : ℚ)
    (timestep : ℕ) : List PVal :=
  let scale := r.scaler alpha * r.ramp timestep
  [.nat r.atom_index_1, .nat r.atom_index_2, .rat r.r1, .rat r.r2,
   .rat r.r3, .rat r.r4, .rat (r.k * scale), .rat (r.asymptote * scale)]

/-- Positional arguments of `meld_force.addTorsionRestraint` as issued by
`_add_meld_restraint` (creation path). -/
def torsAddParams (r : TorsionRestraint) (alpha : ℚ) (timestep : ℕ) :
    List PVal :=
  let scale := r.scaler alpha * r.ramp timestep
  [.nat r.atom_index_1, .nat r.atom_index_2, .nat r.atom_index_3,
   .nat r.atom_index_4, .rat r.phi, .rat r.delta_phi, .rat (r.k * scale)]

/-- Positional arguments of `meld_force.addDistProfileRestraint` as issued
by `_add_meld_restraint` (creation path). -/
def distProfAddParams (r : DistProfileRestraint) (alpha : ℚ)
    (timestep : ℕ) : List PVal :=
  let scale := r.scaler alpha * r.ramp timestep
  [.nat r.atom_index_1, .nat r.atom_index_2, .rat r.r_min, .rat r.r_max,
   .nat r.n_bins, .vec (col r.spline_params r.n_bins 0),
   .vec (col r.spline_params r.n_bins 1), .vec (col r.spline_params r.n_bins 2),
   .vec (col r.spline_params r.n_bins 3), .rat (r.scale_factor * scale)]

/-- Positional arguments of `meld_force.addTorsProfileRestraint` as issued
by `_add_meld_restraint` (creation path). -/
def torsProfAddParams (r : TorsProfileRestraint) (alpha : ℚ)
    (timestep : ℕ) : List PVal :=
  let scale := r.scaler alpha * r.ramp timestep
  [.nat r.atom_index_1, .nat r.atom_index_2, .nat r.atom_index_3,
   .nat r.atom_index_4, .nat r.atom_index_5, .nat r.atom_index_6,
   .nat r.atom_index_7, .nat r.atom_index_8, .nat r.n_bins,
   .vec (col r.spline_params r.n_bins 0), .vec (col r.spline_params r.n_bins 1),
   .vec (col r.spline_params r.n_bins 2), .vec (col r.spline_params r.n_bins 3),
   .vec (col r.spline_params r.n_bins 4), .vec (col r.spline_params r.n_bins 5),
   .vec (col r.spline_params r.n_bins 6), .vec (col r.spline_params r.n_bins 7),
   .vec (col r.spline_params r.n_bins 8), .vec (col r.spline_params r.n_bins 9),
   .vec (col r.spline_params r.n_bins 10), .vec (col r.spline_params r.n_bins 11),
   .vec (col r.spline_params r.n_bins 12), .vec (col r.spline_params r.n_bins 13),
   .vec (col r.spline_params r.n_bins 14), .vec (col r.spline_params r.n_bins 15),
   .rat (r.scale_factor * scale)]

/-- Positional arguments of `meld_force.addGMMRestraint` as issued by
`_add_meld_restraint` (creation path). -/
def gmmAddParams (r : GMMDistanceRestraint) (alpha : ℚ) (timestep : ℕ) :
    List PVal :=
  let scale := r.scaler alpha * r.ramp timestep
  let nd := r.n_distances
  let nc := r.n_components
  let w := r.weights
  let m := flattenMeans r.means nc nd
  let p := _setup_precisions r.precisions nd nc
  [.nat nd, .nat nc, .rat scale, .idxs r.atoms, .vec w, .vec m,
   .vec p.1, .vec p.2]

/-- Positional arguments (after the index) of
`self.force.modifyDistanceRestraint` as issued by `_update_restraints`
(refresh path). -/
def distModifyParams (r : DistanceRestraint) (alpha : ℚ) (timestep : ℕ) :
    List PVal :=
  let scale := r.scaler alpha * r.ramp timestep
  [.nat r.atom_index_1, .nat r.atom_index_2, .rat (r.r1 alpha),
   .rat (r.r2 alpha), .rat (r.r3 alpha), .rat (r.r4 alpha),
   .rat (r.k * scale)]

/-- Positional arguments (after the index) of
`self.force.modifyHyperbolicDistanceRestraint` as issued by
`_update_restraints` (refresh path). -/
def hyperModifyParams (r : HyperbolicDistanceRestraint) (alpha : ℚ)
    (timestep : ℕ) : List PVal :=
  let scale := r.scaler alpha * r.ramp timestep
  [.nat r.atom_index_1, .nat r.atom_index_2, .rat r.r1, .rat r.r2,
   .rat r.r3, .rat r.r4, .rat (r.k * scale), .rat (r.asymptote * scale)]

/-- Positional arguments (after the index) of
`self.force.modifyTorsionRestraint` as issued by `_update_restraints`
(refresh path). -/
def torsModifyParams (r : TorsionRestraint) (alpha : ℚ) (timestep : ℕ) :
    List PVal :=
  let scale := r.scaler alpha * r.ramp timestep
  [.nat r.atom_index_1, .nat r.atom_index_2, .nat r.atom_index_3,
   .nat r.atom_index_4, .rat r.phi, .rat r.delta_phi, .rat (r.k * scale)]

/-- Positional arguments (after the index) of
`self.force.modifyDistProfileRestraint` as issued by `_update_restraints`
(refresh path). -/
def distProfModifyParams (r : DistProfileRestraint) (alpha : ℚ)
    (timestep : ℕ) : List PVal :=
  let scale := r.scaler alpha * r.ramp timestep
  [.nat r.atom_index_1, .nat r.atom_index_2, .rat r.r_min, .rat r.r_max,
   .nat r.n_bins, .vec (col r.spline_params r.n_bins 0),
   .vec (col r.spline_params r.n_bins 1), .vec (col r.spline_params r.n_bins 2),
   .vec (col r.spline_params r.n_bins 3), .rat (r.scale_factor * scale)]

/-- Positional arguments (after the index) of
`self.force.modifyTorsProfileRestraint` as issued by `_update_restraints`
(refresh path). -/
def torsProfModifyParams (r : TorsProfileRestraint) (alpha : ℚ)
    (timestep : ℕ) : List PVal :=
  let scale := r.scaler alpha * r.ramp timestep
  [.nat r.atom_index_1, .nat r.atom_index_2, .nat r.atom_index_3,
   .nat r.atom_index_4, .nat r.atom_index_5, .nat r.atom_index_6,
   .nat r.atom_index_7, .nat r.atom_index_8, .nat r.n_bins,
   .vec (col r.spline_params r.n_bins 0), .vec (col r.spline_params r.n_bins 1),
   .vec (col r.spline_params r.n_bins 2), .vec (col r.spline_params r.n_bins 3),
   .vec (col r.spline_params r.n_bins 4), .vec (col r.spline_params r.n_bins 5),
   .vec (col r.spline_params r.n_bins 6), .vec (col r.spline_params r.n_bins 7),
   .vec (col r.spline_params r.n_bins 8), .vec (col r.spline_params r.n_bins 9),
   .vec (col r.spline_params r.n_bins 10), .vec (col r.spline_params r.n_bins 11),
   .vec (col r.spline_params r.n_bins 12), .vec (col r.spline_params r.n_bins 13),
   .vec (col r.spline_params r.n_bins 14), .vec (col r.spline_params r.n_bins 15),
   .rat (r.scale_factor * scale)]

/-- Positional arguments (after the index) of
`self.force.modifyGMMRestraint` as issued by `_update_restraints`
(refresh path). -/
def gmmModifyParams (r : GMMDistanceRestraint) (alpha : ℚ) (timestep : ℕ) :
    List PVal :=
  let scale := r.scaler alpha * r.ramp timestep
  let nd := r.n_distances
  let nc := r.n_components
  let w := r.weights
  let m := flattenMeans r.means nc nd
  let p := _setup_precisions r.precisions nd nc
  [.nat nd, .nat nc, .rat scale, .idxs r.atoms, .vec w, .vec m,
   .vec p.1, .vec p.2]

/-- The external `MeldForce` engine, modelled as the record of every
creation call it has received: one parameter-list sequence per restraint
kind, plus group and collection entries (member indices and the
`num_active` passed at creation/last modification). -/
structure MeldForce where
  distance : List (List PVal)
  hyperbolic : List (List PVal)
  torsion : List (List PVal)
  distProf : List (List PVal)
  torsProf : List (List PVal)
  gmm : List (List PVal)
  groups : List (List ℕ × ℤ)
  collections : List (List ℕ × ℤ)

/-- A fresh `MeldForce()` with no restraints, groups or collections. -/
def emptyForce : MeldForce :=
  ⟨[], [], [], [], [], [], [], []⟩

/-- Total number of restraints created so far: the engine assigns each new
restraint the next global index. -/
def MeldForce.totalRestraints (f : MeldForce) : ℕ :=
  f.distance.length + f.hyperbolic.length + f.torsion.length +
    f.distProf.length + f.torsProf.length + f.gmm.length

/-- The per-kind creation list of the engine. -/
def MeldForce.kindList (f : MeldForce) : Kind → List (List PVal)
  | .distance => f.distance
  | .hyperbolic => f.hyperbolic
  | .torsion => f.torsion
  | .distProf => f.distProf
  | .torsProf => f.torsProf
  | .gmm => f.gmm

/-- Record a creation call of the given kind; returns the updated engine
and the global restraint index assigned. -/
def MeldForce.addRestraint (f : MeldForce) (k : Kind) (ps : List PVal) :
    MeldForce × ℕ :=
  let f' : MeldForce :=
    match k with
    | .distance => { f with distance := f.distance ++ [ps] }
    | .hyperbolic => { f with hyperbolic := f.hyperbolic ++ [ps] }
    | .torsion => { f with torsion := f.torsion ++ [ps] }
    | .distProf => { f with distProf := f.distProf ++ [ps] }
    | .torsProf => { f with torsProf := f.torsProf ++ [ps] }
    | .gmm => { f with gmm := f.gmm ++ [ps] }
  (f', f.totalRestraints)

/-- `meld_force.addGroup(member_indices, num_active)`. -/
def MeldForce.addGroup (f : MeldForce) (members : List ℕ) (num_active : ℤ) :
    MeldForce × ℕ :=
  ({ f with groups := f.groups ++ [(members, num_active)] }, f.groups.length)

/-- `meld_force.addCollection(group_indices, num_active)`. -/
def MeldForce.addCollection (f : MeldForce) (members : List ℕ)
    (num_active : ℤ) : MeldForce × ℕ :=
  ({ f with collections := f.collections ++ [(members, num_active)] },
   f.collections.length)

/-- `_RestraintTracker`: one append-only sequence per restraint kind, one
of optional groups and one of optional collections (`none` is the
no-update sentinel). -/
structure Tracker where
  distance_restraints : List DistanceRestraint
  hyperbolic_distance_restraints : List HyperbolicDistanceRestraint
  torsion_restraints : List TorsionRestraint
  dist_prof_restraints : List DistProfileRestraint
  torsion_profile_restraints : List TorsProfileRestraint
  gmm_restraints : List GMMDistanceRestraint
  groups : List (Option RestraintGroup)
  collections : List (Option SelectivelyActiveCollection)

/-- `_RestraintTracker.__init__`: all sequences empty. -/
def emptyTracker : Tracker :=
  ⟨[], [], [], [], [], [], [], []⟩

/-- `_add_meld_restraint(tracker, rest, meld_force, alpha, timestep)`:
compute the scaled parameter list for the restraint's kind, issue the
creation call, append the restraint to the matching tracker sequence and
return the engine-assigned index.  An unrecognized kind raises
(`RuntimeError`), before any engine call or tracker append. -/
def _add_meld_restraint (tracker : Tracker) (rest : Restraint)
    (meld_force : MeldForce) (alpha : ℚ) (timestep : ℕ) :
    Except String (ℕ × Tracker × MeldForce) :=
  match rest with
  | .distance r =>
      let (f, idx) := meld_force.addRestraint .distance
        (distAddParams r alpha timestep)
      .ok (idx, { tracker with
        distance_restraints := tracker.distance_restraints ++ [r] }, f)
  | .hyperbolic r =>
      let (f, idx) := meld_force.addRestraint .hyperbolic
        (hyperAddParams r alpha timestep)
      .ok (idx, { tracker with
        hyperbolic_distance_restraints :=
          tracker.hyperbolic_distance_restraints ++ [r] }, f)
  | .torsion r =>
      let (f, idx) := meld_force.addRestraint .torsion
        (torsAddParams r alpha timestep)
      .ok (idx, { tracker with
        torsion_restraints := tracker.torsion_restraints ++ [r] }, f)
  | .distProf r =>
      let (f, idx) := meld_force.addRestraint .distProf
        (distProfAddParams r alpha timestep)
      .ok (idx, { tracker with
        dist_prof_restraints := tracker.dist_prof_restraints ++ [r] }, f)
  | .torsProf r =>
      let (f, idx) := meld_force.addRestraint .torsProf
        (torsProfAddParams r alpha timestep)
      .ok (idx, { tracker with
        torsion_profile_restraints :=
          tracker.torsion_profile_restraints ++ [r] }, f)
  | .gmm r =>
      let (f, idx) := meld_force.addRestraint .gmm
        (gmmAddParams r alpha timestep)
      .ok (idx, { tracker with
        gmm_restraints := tracker.gmm_restraints ++ [r] }, f)
  | .unknown _ => .error "Do not know how to handle restraint"
  | .nonSelectable _ => .error "Do not know how to handle restraint"

/-- `MeldRestraintTransformer._handle_num_active(value, state)`: a sampled
parameter reference is resolved through the parameter manager and
truncated with `int(...)`; a literal integer is returned unchanged. -/
def handle_num_active (pm : ParamManager) (value : NumActive)
    (state : SimState) : ℤ :=
  match value with
  | .param p => pyInt (pm.extract_value p state.parameters)
  | .lit n => n

/-- The OpenMM system, modelled as the list of forces added to it. -/
structure MMSystem where
  forces : List MeldForce

/-- `MeldRestraintTransformer`: the parameter manager, the tracker, the
two partitions produced by the constructor, the `active` flag and the
force object (set by `add_interactions`; `emptyForce` before that). -/
structure MeldRestraintTransformer where
  param_manager : ParamManager
  tracker : Tracker
  always_on : List Restraint
  selective_on : List SelectivelyActiveCollection
  active : Bool
  force : MeldForce

/-- `MeldRestraintTransformer.__init__`: keep the selectable restraints of
`always_active_restraints` and all of `selectively_active_restraints`
(both lists are mutated by removal on the Python side, which callers of
this model observe by filtering likewise); the transformer is active iff
either partition is nonempty.  The unused `options` argument is omitted. -/
def mkTransformer (pm : ParamManager)
    (always_active_restraints : List Restraint)
    (selectively_active_restraints : List SelectivelyActiveCollection) :
    MeldRestraintTransformer :=
  let always_on := always_active_restraints.filter Restraint.isSelectable
  let selective_on := selectively_active_restraints
  { param_manager := pm
    tracker := emptyTracker
    always_on := always_on
    selective_on := selective_on
    active := !always_on.isEmpty || !selective_on.isEmpty
    force := emptyForce }

/-- The always-on loop of `add_interactions`: register each restraint at
`(0, 0)`, wrap it in a singleton group with `num_active = 1`, record the
group as a `none` sentinel, and collect the group indices. -/
def alwaysOnLoop (tracker : Tracker) (force : MeldForce)
    (rests : List Restraint) :
    Except String (Tracker × MeldForce × List ℕ) :=
  match rests with
  | [] => .ok (tracker, force, [])
  | rest :: rs =>
      match _add_meld_restraint tracker rest force 0 0 with
      | .error e => .error e
      | .ok (rest_index, tracker, force) =>
          let (force, group_index) := force.addGroup [rest_index] 1
          let tracker := { tracker with groups := tracker.groups ++ [none] }
          match alwaysOnLoop tracker force rs with
          | .error e => .error e
          | .ok (tracker, force, group_list) =>
              .ok (tracker, force, group_index :: group_list)

/-- The inner restraint loop for one selective group: register each member
at `(0, 0)` and collect the returned indices. -/
def registerList (tracker : Tracker) (force : MeldForce)
    (rests : List Restraint) :
    Except String (Tracker × MeldForce × List ℕ) :=
  match rests with
  | [] => .ok (tracker, force, [])
  | rest :: rs =>
      match _add_meld_restraint tracker rest force 0 0 with
      | .error e => .error e
      | .ok (rest_index, tracker, force) =>
          match registerList tracker force rs with
          | .error e => .error e
          | .ok (tracker, force, idxs) =>
              .ok (tracker, force, rest_index :: idxs)

/-- The group loop for one selective collection: register the members,
resolve the group's own `num_active` against the current state, create the
group, and track it as updatable. -/
def groupLoop (pm : ParamManager) (state : SimState) (tracker : Tracker)
    (force : MeldForce) (groups : List RestraintGroup) :
    Except String (Tracker × MeldForce × List ℕ) :=
  match groups with
  | [] => .ok (tracker, force, [])
  | group :: gs =>
      match registerList tracker force group.restraints with
      | .error e => .error e
      | .ok (tracker, force, restraint_indices) =>
          let group_num_active := handle_num_active pm group.num_active state
          let (force, group_index) := force.addGroup restraint_indices
            group_num_active
          let tracker :=
            { tracker with groups := tracker.groups ++ [some group] }
          match groupLoop pm state tracker force gs with
          | .error e => .error e
          | .ok (tracker, force, gis) =>
              .ok (tracker, force, group_index :: gis)

/-- The collection loop of `add_interactions`.  After the group loop, the
source reads `coll_num_active = self._handle_num_active(group.num_active,
state)`: `group` is the leaked loop variable, i.e. the last group iterated
so far.  `lastGroup` threads that Python variable; if it is still unbound
when read (first collection has no groups), the lookup raises
(`NameError`). -/
def collLoop (pm : ParamManager) (state : SimState) (tracker : Tracker)
    (force : MeldForce) (lastGroup : Option RestraintGroup)
    (colls : List SelectivelyActiveCollection) :
    Except String (Tracker × MeldForce) :=
  match colls with
  | [] => .ok (tracker, force)
  | coll :: cs =>
      match groupLoop pm state tracker force coll.groups with
      | .error e => .error e
      | .ok (tracker, force, group_indices) =>
          let lastGroup := match coll.groups.getLast? with
            | some g => some g
            | none => lastGroup
          match lastGroup with
          | none => .error "NameError: name group is not defined"
          | some group =>
              let coll_num_active := handle_num_active pm group.num_active state
              let (force, _) :=
                force.addCollection group_indices coll_num_active
              let tracker := { tracker with
                collections := tracker.collections ++ [some coll] }
              collLoop pm state tracker force (some group) cs

/-- `MeldRestraintTransformer.add_interactions(state, system, topology)`:
if active, build a fresh `MeldForce`, register the always-on restraints
(each in its own sentinel singleton group, all in one sentinel
collection), then register each selective collection, add the force to the
system and remember it; otherwise return the system untouched. -/
def add_interactions (tr : MeldRestraintTransformer) (state : SimState)
    (system : MMSystem) :
    Except String (MeldRestraintTransformer × MMSystem) :=
  if tr.active then
    let step1 : Except String (Tracker × MeldForce) :=
      if !tr.always_on.isEmpty then
        match alwaysOnLoop tr.tracker emptyForce tr.always_on with
        | .error e => .error e
        | .ok (tracker, meld_force, group_list) =>
            let (meld_force, _) := meld_force.addCollection group_list
              (group_list.length : ℤ)
            .ok ({ tracker with
              collections := tracker.collections ++ [none] }, meld_force)
      else
        .ok (tr.tracker, emptyForce)
    match step1 with
    | .error e => .error e
    | .ok (tracker, meld_force) =>
        match collLoop tr.param_manager state tracker meld_force none
            tr.selective_on with
        | .error e => .error e
        | .ok (tracker, meld_force) =>
            .ok ({ tr with tracker := tracker, force := meld_force },
              { system with forces := system.forces ++ [meld_force] })
  else
    .ok (tr, system)

/-- A per-step call issued against the external engine by `update`. -/
inductive EngineCall
  | modifyRestraint (k : Kind) (i : ℕ) (ps : List PVal)
  | modifyCollectionNumActive (i : ℕ) (n : ℤ)
  | modifyGroupNumActive (i : ℕ) (n : ℤ)
  | updateParametersInContext
deriving DecidableEq

/-- `MeldRestraintTransformer._update_restraints(alpha, timestep)`: one
modify call per tracked restraint, per kind, in tracker order, addressed
by position in the kind sequence. -/
def update_restraints (tracker : Tracker) (alpha : ℚ) (timestep : ℕ) :
    List EngineCall :=
  (tracker.distance_restraints.enum.map fun p =>
    .modifyRestraint .distance p.1 (distModifyParams p.2 alpha timestep)) ++
  (tracker.hyperbolic_distance_restraints.enum.map fun p =>
    .modifyRestraint .hyperbolic p.1 (hyperModifyParams p.2 alpha timestep)) ++
  (tracker.torsion_restraints.enum.map fun p =>
    .modifyRestraint .torsion p.1 (torsModifyParams p.2 alpha timestep)) ++
  (tracker.dist_prof_restraints.enum.map fun p =>
    .modifyRestraint .distProf (p.1) (distProfModifyParams p.2 alpha timestep)) ++
  (tracker.torsion_profile_restraints.enum.map fun p =>
    .modifyRestraint .torsProf p.1 (torsProfModifyParams p.2 alpha timestep)) ++
  (tracker.gmm_restraints.enum.map fun p =>
    .modifyRestraint .gmm p.1 (gmmModifyParams p.2 alpha timestep))

/-- `MeldRestraintTransformer._update_groups_collections(state)`:
collections first, then groups; `None` sentinel entries are skipped
(`continue`); every other entry gets its `num_active` re-resolved against
the current state and pushed at its tracker position. -/
def update_groups_collections (pm : ParamManager) (tracker : Tracker)
    (state : SimState) : List EngineCall :=
  (tracker.collections.enum.filterMap fun p =>
    p.2.map fun coll =>
      .modifyCollectionNumActive p.1 (handle_num_active pm coll.num_active state)) ++
  (tracker.groups.enum.filterMap fun p =>
    p.2.map fun group =>
      .modifyGroupNumActive p.1 (handle_num_active pm group.num_active state))

/-- `MeldRestraintTransformer.update(state, simulation, alpha, timestep)`:
if active, refresh all restraints, then all collections and groups, then
ask the engine to recompute context-derived state; if inactive, no engine
call at all. -/
def update (tr : MeldRestraintTransformer) (state : SimState) (alpha : ℚ)
    (timestep : ℕ) : List EngineCall :=
  if tr.active then
    update_restraints tr.tracker alpha timestep ++
      update_groups_collections tr.param_manager tr.tracker state ++
      [.updateParametersInContext]
  else
    []

/-- Effect of one engine call on the engine state.  Modify calls replace
the addressed entry (groups and collections keep their membership and get
the new `num_active`); the context recomputation does not change the
recorded state. -/
def applyCall (f : MeldForce) (c : EngineCall) : MeldForce :=
  match c with
  | .modifyRestraint k i ps =>
      match k with
      | .distance => { f with distance := f.distance.set i ps }
      | .hyperbolic => { f with hyperbolic := f.hyperbolic.set i ps }
      | .torsion => { f with torsion := f.torsion.set i ps }
      | .distProf => { f with distProf := f.distProf.set i ps }
      | .torsProf => { f with torsProf := f.torsProf.set i ps }
      | .gmm => { f with gmm := f.gmm.set i ps }
  | .modifyGroupNumActive i n =>
      match f.groups[i]? with
      | some (m, _) => { f with groups := f.groups.set i (m, n) }
      | none => f
  | .modifyCollectionNumActive i n =>
      match f.collections[i]? with
      | some (m, _) => { f with collections := f.collections.set i (m, n) }
      | none => f
  | .updateParametersInContext => f

/-- Apply a list of engine calls in order. -/
def applyCalls (f : MeldForce) (cs : List EngineCall) : MeldForce :=
  cs.foldl applyCall f

/-- Apply one `update` step (the calls it issues) to an engine state. -/
def applyStep (tr : MeldRestraintTransformer) (f : MeldForce)
    (s : SimState × ℚ × ℕ) : MeldForce :=
  applyCalls f (update tr s.1 s.2.1 s.2.2)

/-- Projection selecting distance restraints from the polymorphic type. -/
def distOf : Restraint → Option DistanceRestraint
  | .distance r => some r
  | _ => none

/-- Projection selecting hyperbolic distance restraints. -/
def hyperOf : Restraint → Option HyperbolicDistanceRestraint
  | .hyperbolic r => some r
  | _ => none

/-- Projection selecting torsion restraints. -/
def torsOf : Restraint → Option TorsionRestraint
  | .torsion r => some r
  | _ => none

/-- Projection selecting distance-profile restraints. -/
def distProfOf : Restraint → Option DistProfileRestraint
  | .distProf r => some r
  | _ => none

/-- Projection selecting torsion-profile restraints. -/
def torsProfOf : Restraint → Option TorsProfileRestraint
  | .torsProf r => some r
  | _ => none

/-- Projection selecting GMM restraints. -/
def gmmOf : Restraint → Option GMMDistanceRestraint
  | .gmm r => some r
  | _ => none

/-- Effect of registering a list of restraints on the tracker: each kind
sequence is extended by the restraints of that kind in order; groups and
collections are untouched. -/
def regTracker (tk : Tracker) (rs : List Restraint) : Tracker where
  distance_restraints := tk.distance_restraints ++ rs.filterMap distOf
  hyperbolic_distance_restraints :=
    tk.hyperbolic_distance_restraints ++ rs.filterMap hyperOf
  torsion_restraints := tk.torsion_restraints ++ rs.filterMap torsOf
  dist_prof_restraints := tk.dist_prof_restraints ++ rs.filterMap distProfOf
  torsion_profile_restraints :=
    tk.torsion_profile_restraints ++ rs.filterMap torsProfOf
  gmm_restraints := tk.gmm_restraints ++ rs.filterMap gmmOf
  groups := tk.groups
  collections := tk.collections

/-- Effect of registering a list of restraints at `(0, 0)` on the engine:
each kind's creation list is extended by the corresponding scaled
parameter lists in order; groups and collections are untouched. -/
def regForce (f : MeldForce) (rs : List Restraint) : MeldForce where
  distance := f.distance ++ (rs.filterMap distOf).map fun r => distAddParams r 0 0
  hyperbolic :=
    f.hyperbolic ++ (rs.filterMap hyperOf).map fun r => hyperAddParams r 0 0
  torsion := f.torsion ++ (rs.filterMap torsOf).map fun r => torsAddParams r 0 0
  distProf :=
    f.distProf ++ (rs.filterMap distProfOf).map fun r => distProfAddParams r 0 0
  torsProf :=
    f.torsProf ++ (rs.filterMap torsProfOf).map fun r => torsProfAddParams r 0 0
  gmm := f.gmm ++ (rs.filterMap gmmOf).map fun r => gmmAddParams r 0 0
  groups := f.groups
  collections := f.collections

/-- The registration order of a transformer's restraint universe: always-on
restraints first, then each selective collection's groups' members. -/
def regOrder (tr : MeldRestraintTransformer) : List Restraint :=
  tr.always_on ++
    tr.selective_on.flatMap fun coll => coll.groups.flatMap fun g => g.restraints

/-- The `num_active` values with which the collection loop creates each
collection, in order: for each collection the leaked loop variable
`group` — its own last group if it has one, otherwise the last group seen
so far — is resolved against the state.  An empty-groups collection with
no predecessor stops the enumeration (the code raises `NameError` there,
so no further creation call happens). -/
def leakedVals (pm : ParamManager) (st : SimState) :
    Option RestraintGroup → List SelectivelyActiveCollection → List ℤ
  | _, [] => []
  | lg, c :: cs =>
      let lg' := match c.groups.getLast? with
        | some g => some g
        | none => lg
      match lg' with
      | some g =>
          handle_num_active pm g.num_active st :: leakedVals pm st (some g) cs
      | none => []

/-- Recover the payload of a successful `Except`, with a fallback. -/
def exceptOr (d : α) : Except String α → α
  | .ok a => a
  | .error _ => d

/-! Concrete instances used by the witnesses. -/

/-- A parameter manager whose sampled values are all zero. -/
def pm0 : ParamManager := ⟨fun _ _ => 0⟩

/-- A concrete simulation state. -/
def s0 : SimState := ⟨0⟩

/-- A second concrete simulation state, distinct from `s0`. -/
def s1 : SimState := ⟨1⟩

/-- An empty OpenMM system. -/
def sys0 : MMSystem := ⟨[]⟩

/-- The rational 27/10 (the spec's 2.7 example), given in lowest terms so
that its numerator and denominator are definitionally available. -/
def q27 : ℚ := ⟨27, 10, by decide, by decide⟩

/-- A stub parameter manager returning 2.7 for every lookup. -/
def pm27 : ParamManager := ⟨fun _ _ => q27⟩

/-- A concrete distance restraint (k = 10, scaler and ramp constantly 1). -/
def d0 : DistanceRestraint :=
  ⟨1, 2, fun _ => 1, fun _ => 2, fun _ => 3, fun _ => 4, 10,
   fun _ => 1, fun _ => 1⟩

/-- A concrete torsion restraint (k = 5, scaler and ramp constantly 1). -/
def t0 : TorsionRestraint :=
  ⟨1, 2, 3, 4, 0, 1, 5, fun _ => 1, fun _ => 1⟩

/-- A concrete precision stack entry function: `P c j k = 100c + 10j + k`. -/
def P0 : ℕ → ℕ → ℕ → ℚ := fun c j k => ((c * 100 + j * 10 + k : ℕ) : ℚ)

/-- A singleton group with `num_active = 1` around the distance restraint. -/
def gC1 : RestraintGroup := ⟨[.distance d0], .lit 1⟩

/-- A collection whose own `num_active` (5) differs from its only group's
`num_active` (1). -/
def collC1 : SelectivelyActiveCollection := ⟨[gC1], .lit 5⟩

/-- The transformer owning only `collC1`. -/
def trC1 : MeldRestraintTransformer := mkTransformer pm0 [] [collC1]

/-- A group holding the torsion restraint, `num_active = 1`. -/
def gE : RestraintGroup := ⟨[.torsion t0], .lit 1⟩

/-- A two-group collection of torsion restraints, `num_active = 1`. -/
def collE : SelectivelyActiveCollection := ⟨[gE, gE], .lit 1⟩

/-- The end-to-end transformer: one always-on distance restraint and one
selective two-group torsion collection. -/
def trE : MeldRestraintTransformer := mkTransformer pm0 [.distance d0] [collE]

/-- A tracker holding one sentinel and one updatable entry in both the
group and the collection sequence. -/
def tracker5 : Tracker :=
  ⟨[d0], [], [t0], [], [], [], [none, some gE], [none, some collC1]⟩

/-- A transformer with `tracker5` installed, used to exercise updates. -/
def tr5 : MeldRestraintTransformer :=
  ⟨pm0, tracker5, [.distance d0], [collC1], true, emptyForce⟩

/-- A concrete engine state with two groups and two collections. -/
def f5 : MeldForce :=
  ⟨[distAddParams d0 0 0], [], [torsAddParams t0 0 0], [], [], [],
   [([0], 1), ([1], 1)], [([0], 2), ([1], 5)]⟩

/-! Helper lemmas. -/

theorem mem_map_enum_of_getElem? {β γ : Type _} {l : List β} {i : ℕ} {b : β}
    (f : ℕ × β → γ) (h : l[i]? = some b) : f (i, b) ∈ l.enum.map f :=
  List.mem_map_of_mem f (List.mk_mem_enum_iff_getElem?.2 h)

theorem pyInt_of_nonneg (q : ℚ) (hq : 0 ≤ q) : pyInt q = ⌊q⌋ := by
  have hnum : 0 ≤ q.num := Rat.num_nonneg.2 hq
  rcases lt_or_eq_of_le hnum with hpos | hzero
  · rw [pyInt, Int.sign_eq_one_of_pos hpos, Rat.floor_def, one_mul,
      Int.ofNat_ediv]
    rw [Int.natAbs_of_nonneg hnum]
  · rw [pyInt, ← hzero, Int.sign_zero, zero_mul, Rat.floor_def, ← hzero,
      Int.zero_ediv]

theorem pyInt_of_neg (q : ℚ) (hq : q < 0) : pyInt q = ⌈q⌉ := by
  have hnum : q.num < 0 := by
    by_contra hcon
    push_neg at hcon
    exact absurd (Rat.num_nonneg.1 hcon) (not_le.2 hq)
  have hceil : (⌈q⌉ : ℤ) = -⌊-q⌋ := by
    rw [Int.floor_neg]
    ring
  have habs : (-q.num : ℤ) = (q.num.natAbs : ℤ) :=
    (Int.ofNat_natAbs_of_nonpos (le_of_lt hnum)).symm
  rw [pyInt, Int.sign_eq_neg_one_of_neg hnum, hceil, Rat.floor_def,
    Rat.neg_num, Rat.neg_den, habs, ← Int.ofNat_ediv, neg_one_mul]

/-- C7: for every restraint kind, the per-step refresh call passes the
external engine exactly the parameter list (same arity, order and slots)
that the creation call for that kind passes, at the same
`(alpha, timestep)`; only the engine index prefix differs. -/
theorem refresh_params_match_creation_params (alpha : ℚ) (timestep : ℕ) :
    (∀ r : DistanceRestraint,
      distModifyParams r alpha timestep = distAddParams r alpha timestep) ∧
    (∀ r : HyperbolicDistanceRestraint,
      hyperModifyParams r alpha timestep = hyperAddParams r alpha timestep) ∧
    (∀ r : TorsionRestraint,
      torsModifyParams r alpha timestep = torsAddParams r alpha timestep) ∧
    (∀ r : DistProfileRestraint,
      distProfModifyParams r alpha timestep = distProfAddParams r alpha timestep) ∧
    (∀ r : TorsProfileRestraint,
      torsProfModifyParams r alpha timestep = torsProfAddParams r alpha timestep) ∧
    (∀ r : GMMDistanceRestraint,
      gmmModifyParams r alpha timestep = gmmAddParams r alpha timestep) :=
  ⟨fun _ => rfl, fun _ => rfl, fun _ => rfl, fun _ => rfl, fun _ => rfl,
   fun _ => rfl⟩

/-- C2: for every Distance restraint with scaler `s`, ramp `r` and force
constant `K`, and every `(alpha, timestep)` pair, the force-constant slot
(position 6 of the kind's fixed parameter list) passed to the engine by
the creation call and by the refresh call equals exactly
`K * s(alpha) * r(timestep)`; moreover the creation call passes exactly
`distAddParams` to the engine, and the refresh call for tracker position
`i` passes exactly `distModifyParams` at index `i`. -/
theorem distance_force_constant_composition (r : DistanceRestraint)
    (alpha : ℚ) (timestep : ℕ) :
    (distAddParams r alpha timestep)[6]? =
      some (.rat (r.k * r.scaler alpha * r.ramp timestep)) ∧
    (distModifyParams r alpha timestep)[6]? =
      some (.rat (r.k * r.scaler alpha * r.ramp timestep)) ∧
    (∀ tk f, _add_meld_restraint tk (.distance r) f alpha timestep =
      .ok (f.totalRestraints,
        { tk with distance_restraints := tk.distance_restraints ++ [r] },
        (f.addRestraint .distance (distAddParams r alpha timestep)).1)) ∧
    (∀ tk i, tk.distance_restraints[i]? = some r →
      EngineCall.modifyRestraint .distance i (distModifyParams r alpha timestep) ∈
        update_restraints tk alpha timestep) := by
  refine ⟨?_, ?_, fun tk f => rfl, fun tk i h => ?_⟩
  · simp [distAddParams, mul_assoc]
  · simp [distModifyParams, mul_assoc]
  · have hm := mem_map_enum_of_getElem?
      (fun p => EngineCall.modifyRestraint .distance p.1
        (distModifyParams p.2 alpha timestep)) h
    unfold update_restraints
    exact List.mem_append_left _ (List.mem_append_left _
      (List.mem_append_left _ (List.mem_append_left _
        (List.mem_append_left _ hm))))

/-- C2 witness: the creation slot for the concrete restraint `d0`, and the
refresh call addressed at tracker position 0 of `tracker5`. -/
theorem distance_force_constant_composition_witness :
    (distAddParams d0 0 0)[6]? = some (.rat (d0.k * d0.scaler 0 * d0.ramp 0)) ∧
    tracker5.distance_restraints[0]? = some d0 ∧
    EngineCall.modifyRestraint .distance 0 (distModifyParams d0 1 5) ∈
      update_restraints tracker5 1 5 :=
  ⟨(distance_force_constant_composition d0 0 0).1, rfl,
   (distance_force_constant_composition d0 1 5).2.2.2 tracker5 0 rfl⟩

/-- C4: `_handle_num_active` returns a literal integer unchanged for every
state, and resolves a sampled-parameter reference to
`int(extract_value(ref, state.parameters))`; the `int(...)` truncation
(`pyInt`) is truncation toward zero: floor for nonnegative values, ceiling
for negative ones. -/
theorem handle_num_active_resolution (pm : ParamManager) (state : SimState) :
    (∀ n : ℤ, handle_num_active pm (.lit n) state = n) ∧
    (∀ p : ℕ, handle_num_active pm (.param p) state =
      pyInt (pm.extract_value p state.parameters)) ∧
    (∀ q : ℚ, 0 ≤ q → pyInt q = ⌊q⌋) ∧
    (∀ q : ℚ, q < 0 → pyInt q = ⌈q⌉) :=
  ⟨fun _ => rfl, fun _ => rfl, pyInt_of_nonneg, pyInt_of_neg⟩

/-- C4 witness: with a stub collaborator returning 2.7, a sampled
reference resolves to `pyInt 2.7 = 2`, and 2.7 is in the nonnegative
(floor) truncation regime. -/
theorem handle_num_active_resolution_witness :
    handle_num_active pm27 (.param 0) s0 =
      pyInt (pm27.extract_value 0 s0.parameters) ∧
    pyInt q27 = 2 ∧ (0 ≤ q27) :=
  ⟨(handle_num_active_resolution pm27 s0).2.1 0, by decide, by decide⟩

/-- C8: registering a restraint whose kind is not one of the six known
variants fails with the fatal `RuntimeError` — the model returns the error
with no engine creation call and no tracker append (the error constructor
carries no successor state) — while a restraint of any known kind
registers without this error. -/
theorem unknown_kind_is_fatal (tk : Tracker) (f : MeldForce) (alpha : ℚ)
    (timestep : ℕ) (rest : Restraint) :
    (rest.isKnown = false →
      _add_meld_restraint tk rest f alpha timestep =
        .error "Do not know how to handle restraint") ∧
    (rest.isKnown = true →
      ∃ out, _add_meld_restraint tk rest f alpha timestep = .ok out) := by
  cases rest <;>
    simp [Restraint.isKnown, _add_meld_restraint]

/-- C8 witness: an unrecognized restraint raises at a concrete input, and
the known-kind restraint `d0` registers successfully there. -/
theorem unknown_kind_is_fatal_witness :
    (Restraint.unknown 7).isKnown = false ∧
    _add_meld_restraint emptyTracker (.unknown 7) emptyForce 0 0 =
      .error "Do not know how to handle restraint" ∧
    (Restraint.distance d0).isKnown = true ∧
    ∃ out, _add_meld_restraint emptyTracker (.distance d0) emptyForce 0 0 =
      .ok out :=
  ⟨rfl, (unknown_kind_is_fatal emptyTracker emptyForce 0 0 (.unknown 7)).1 rfl,
   rfl, (unknown_kind_is_fatal emptyTracker emptyForce 0 0 (.distance d0)).2 rfl⟩

/-- C6: a transformer constructed from an always-active input with no
claimable (selectable) restraints and an empty selective input is
permanently inactive: `add_interactions` returns the transformer and the
system unchanged (no force added, no engine call), and every `update`
issues no engine call, for every state, alpha and timestep. -/
theorem inactive_transformer_is_noop (pm : ParamManager)
    (aa : List Restraint) (sel : List SelectivelyActiveCollection)
    (h1 : aa.filter Restraint.isSelectable = []) (h2 : sel = []) :
    (mkTransformer pm aa sel).active = false ∧
    (∀ state system, add_interactions (mkTransformer pm aa sel) state system =
      .ok (mkTransformer pm aa sel, system)) ∧
    (∀ state alpha timestep,
      update (mkTransformer pm aa sel) state alpha timestep = []) := by
  have hact : (mkTransformer pm aa sel).active = false := by
    simp [mkTransformer, h1, h2]
  refine ⟨hact, fun state system => ?_, fun state alpha timestep => ?_⟩
  · simp [add_interactions, hact]
  · simp [update, hact]

/-- C6 witness: an always-active list holding only a non-selectable
restraint and an empty selective list give an inactive transformer whose
operations are no-ops at a concrete state and system. -/
theorem inactive_transformer_is_noop_witness :
    ([Restraint.nonSelectable 3].filter Restraint.isSelectable = []) ∧
    (mkTransformer pm0 [Restraint.nonSelectable 3] []).active = false ∧
    add_interactions (mkTransformer pm0 [Restraint.nonSelectable 3] []) s0 sys0 =
      .ok (mkTransformer pm0 [Restraint.nonSelectable 3] [], sys0) ∧
    update (mkTransformer pm0 [Restraint.nonSelectable 3] []) s0 0 0 = [] :=
  ⟨rfl,
   (inactive_transformer_is_noop pm0 [Restraint.nonSelectable 3] [] rfl rfl).1,
   (inactive_transformer_is_noop pm0 [Restraint.nonSelectable 3] [] rfl rfl).2.1 s0 sys0,
   (inactive_transformer_is_noop pm0 [Restraint.nonSelectable 3] [] rfl rfl).2.2 s0 0 0⟩

theorem length_flatMap_const {α : Type _} {f : ℕ → List α} {D : ℕ}
    (hf : ∀ i, (f i).length = D) :
    ∀ C, ((List.range C).flatMap f).length = C * D := by
  intro C
  induction C with
  | zero => simp
  | succ n ih =>
      rw [List.range_succ, List.flatMap_append, List.length_append, ih]
      simp [hf, Nat.succ_mul]

theorem getElem?_flatMap_const {α : Type _} {f : ℕ → List α} {D : ℕ}
    (hf : ∀ i, (f i).length = D) :
    ∀ C c d, c < C → d < D →
      ((List.range C).flatMap f)[c * D + d]? = (f c)[d]? := by
  intro C
  induction C with
  | zero => intro c d hc _; exact absurd hc (Nat.not_lt_zero c)
  | succ n ih =>
      intro c d hc hd
      rw [List.range_succ, List.flatMap_append]
      rcases Nat.lt_or_ge c n with h | h
      · rw [List.getElem?_append_left, ih c d h hd]
        rw [length_flatMap_const hf n]
        have h1 : c * D + d < c * D + D := by omega
        have h2 : c * D + D = (c + 1) * D := by ring
        have h3 : (c + 1) * D ≤ n * D := Nat.mul_le_mul_right D h
        omega
      · have hcn : c = n := by omega
        subst hcn
        have hlen : ((List.range c).flatMap f).length = c * D :=
          length_flatMap_const hf c
        rw [List.getElem?_append_right (by omega)]
        rw [hlen]
        have hidx : c * D + d - c * D = d := by omega
        rw [hidx]
        simp

theorem range'_eq_filter_range (j : ℕ) :
    ∀ n, List.range' (j + 1) (n - (j + 1)) =
      (List.range n).filter fun k => j < k := by
  intro n
  induction n with
  | zero => simp
  | succ m ih =>
      rw [List.range_succ, List.filter_append]
      by_cases h : j < m
      · have hm : m + 1 - (j + 1) = (m - (j + 1)) + 1 := by omega
        rw [hm, List.range'_concat, ih]
        have hend : j + 1 + 1 * (m - (j + 1)) = m := by omega
        rw [hend]
        simp [h]
      · have hm : m + 1 - (j + 1) = 0 := by omega
        have hm2 : m - (j + 1) = 0 := by omega
        rw [hm2] at ih
        rw [hm, ← ih]
        simp [h]

/-- C3: for a precision stack with `C` components and `D` distances, the
decomposer's `diag` has length `C * D` with `diag[c*D+d] = P c d d` in
component-major order, and its `offdiag` is exactly the enumeration of
`P c j k` over all `j < k`, components outermost, then `j`, then `k`. -/
theorem setup_precisions_decomposition (P : ℕ → ℕ → ℕ → ℚ) (D C : ℕ) :
    ((_setup_precisions P D C).1).length = C * D ∧
    (∀ c d, c < C → d < D →
      ((_setup_precisions P D C).1)[c * D + d]? = some (P c d d)) ∧
    (_setup_precisions P D C).2 =
      ((List.range C).flatMap fun c =>
        (List.range D).flatMap fun j =>
          ((List.range D).filter fun k => j < k).map fun k => P c j k) := by
  refine ⟨?_, ?_, ?_⟩
  · exact length_flatMap_const (fun i => by simp) C
  · intro c d hc hd
    show ((List.range C).flatMap fun i =>
      (List.range D).map fun j => P i j j)[c * D + d]? = some (P c d d)
    rw [getElem?_flatMap_const (fun i => by simp) C c d hc hd]
    simp [hd]
  · show ((List.range C).flatMap fun i =>
      (List.range D).flatMap fun j =>
        (List.range' (j + 1) (D - (j + 1))).map fun k => P i j k) = _
    simp only [range'_eq_filter_range]

/-- C3 witness: the spec's 2-component, 3-distance example: `diag` has
length 6, `offdiag` has length 6, and the component-major diagonal lookup
holds at `(c, d) = (0, 1)` and `(1, 2)`. -/
theorem setup_precisions_decomposition_witness :
    ((_setup_precisions P0 3 2).1).length = 6 ∧
    ((_setup_precisions P0 3 2).2).length = 6 ∧
    ((_setup_precisions P0 3 2).1)[0 * 3 + 1]? = some (P0 0 1 1) ∧
    ((_setup_precisions P0 3 2).1)[1 * 3 + 2]? = some (P0 1 2 2) :=
  ⟨rfl, rfl,
   (setup_precisions_decomposition P0 3 2).2.1 0 1 (by decide) (by decide),
   (setup_precisions_decomposition P0 3 2).2.1 1 2 (by decide) (by decide)⟩

theorem update_modifyGroup_mem {tr : MeldRestraintTransformer} {s : SimState}
    {alpha : ℚ} {timestep : ℕ} {i : ℕ} {n : ℤ}
    (h : EngineCall.modifyGroupNumActive i n ∈ update tr s alpha timestep) :
    ∃ g, tr.tracker.groups[i]? = some (some g) := by
  cases hact : tr.active with
  | false => simp [update, hact] at h
  | true =>
      simp only [update, hact, if_true, List.mem_append,
        List.mem_singleton] at h
      rcases h with (h | h) | h
      · simp [update_restraints, List.mem_append, List.mem_map] at h
      · simp only [update_groups_collections, List.mem_append,
          List.mem_filterMap, List.mem_singleton] at h
        rcases h with ⟨p, _, hp⟩ | ⟨p, hmem, hp⟩
        · cases hopt : p.2 with
          | none => rw [hopt] at hp; simp at hp
          | some coll => rw [hopt] at hp; simp at hp
        · cases hopt : p.2 with
          | none => rw [hopt] at hp; simp at hp
          | some g =>
              rw [hopt] at hp
              simp only [Option.map_some', Option.some.injEq] at hp
              obtain ⟨hi, _⟩ := EngineCall.modifyGroupNumActive.inj hp
              refine ⟨g, ?_⟩
              have hpe : (p.1, p.2) ∈ tr.tracker.groups.enum := by
                rw [Prod.mk.eta]; exact hmem
              have := List.mk_mem_enum_iff_getElem?.1 hpe
              rw [← hi, this, hopt]
      · simp at h

theorem update_modifyCollection_mem {tr : MeldRestraintTransformer}
    {s : SimState} {alpha : ℚ} {timestep : ℕ} {i : ℕ} {n : ℤ}
    (h : EngineCall.modifyCollectionNumActive i n ∈ update tr s alpha timestep) :
    ∃ c, tr.tracker.collections[i]? = some (some c) := by
  cases hact : tr.active with
  | false => simp [update, hact] at h
  | true =>
      simp only [update, hact, if_true, List.mem_append,
        List.mem_singleton] at h
      rcases h with (h | h) | h
      · simp [update_restraints, List.mem_append, List.mem_map] at h
      · simp only [update_groups_collections, List.mem_append,
          List.mem_filterMap, List.mem_singleton] at h
        rcases h with ⟨p, hmem, hp⟩ | ⟨p, _, hp⟩
        · cases hopt : p.2 with
          | none => rw [hopt] at hp; simp at hp
          | some coll =>
              rw [hopt] at hp
              simp only [Option.map_some', Option.some.injEq] at hp
              obtain ⟨hi, _⟩ := EngineCall.modifyCollectionNumActive.inj hp
              refine ⟨coll, ?_⟩
              have hpe : (p.1, p.2) ∈ tr.tracker.collections.enum := by
                rw [Prod.mk.eta]; exact hmem
              have := List.mk_mem_enum_iff_getElem?.1 hpe
              rw [← hi, this, hopt]
        · cases hopt : p.2 with
          | none => rw [hopt] at hp; simp at hp
          | some g => rw [hopt] at hp; simp at hp
      · simp at h

theorem applyCall_preserves_group (f : MeldForce) (c : EngineCall) (i : ℕ)
    (h : ∀ n, c ≠ .modifyGroupNumActive i n) :
    (applyCall f c).groups[i]? = f.groups[i]? := by
  cases c with
  | modifyRestraint k j ps => cases k <;> rfl
  | modifyGroupNumActive j n =>
      have hne : j ≠ i := fun he => h n (by rw [he])
      cases hg : f.groups[j]? with
      | none => simp [applyCall, hg]
      | some entry =>
          cases entry with
          | mk m old => simp [applyCall, hg, List.getElem?_set_ne hne]
  | modifyCollectionNumActive j n =>
      cases hg : f.collections[j]? with
      | none => simp [applyCall, hg]
      | some entry => cases entry; simp [applyCall, hg]
  | updateParametersInContext => rfl

theorem applyCall_preserves_collection (f : MeldForce) (c : EngineCall)
    (i : ℕ) (h : ∀ n, c ≠ .modifyCollectionNumActive i n) :
    (applyCall f c).collections[i]? = f.collections[i]? := by
  cases c with
  | modifyRestraint k j ps => cases k <;> rfl
  | modifyCollectionNumActive j n =>
      have hne : j ≠ i := fun he => h n (by rw [he])
      cases hg : f.collections[j]? with
      | none => simp [applyCall, hg]
      | some entry =>
          cases entry with
          | mk m old => simp [applyCall, hg, List.getElem?_set_ne hne]
  | modifyGroupNumActive j n =>
      cases hg : f.groups[j]? with
      | none => simp [applyCall, hg]
      | some entry => cases entry; simp [applyCall, hg]
  | updateParametersInContext => rfl

theorem applyCalls_preserves_group (i : ℕ) :
    ∀ (cs : List EngineCall) (f : MeldForce),
      (∀ n, EngineCall.modifyGroupNumActive i n ∉ cs) →
      (applyCalls f cs).groups[i]? = f.groups[i]? := by
  intro cs
  induction cs with
  | nil => intro f _; rfl
  | cons c cs ih =>
      intro f h
      show (applyCalls (applyCall f c) cs).groups[i]? = _
      rw [ih (applyCall f c) fun n hn => h n (List.mem_cons_of_mem c hn),
        applyCall_preserves_group f c i
          fun n he => h n (he ▸ List.mem_cons_self c cs)]

theorem applyCalls_preserves_collection (i : ℕ) :
    ∀ (cs : List EngineCall) (f : MeldForce),
      (∀ n, EngineCall.modifyCollectionNumActive i n ∉ cs) →
      (applyCalls f cs).collections[i]? = f.collections[i]? := by
  intro cs
  induction cs with
  | nil => intro f _; rfl
  | cons c cs ih =>
      intro f h
      show (applyCalls (applyCall f c) cs).collections[i]? = _
      rw [ih (applyCall f c) fun n hn => h n (List.mem_cons_of_mem c hn),
        applyCall_preserves_collection f c i
          fun n he => h n (he ▸ List.mem_cons_self c cs)]

/-- C5: a sentinel (`None`) tracker entry — the wrapping group or
collection of always-active restraints — is never the target of an engine
update call, on any step; consequently its engine-side entry is identical
before and after arbitrarily many update steps. -/
theorem sentinel_entries_never_updated (tr : MeldRestraintTransformer)
    (i j : ℕ) (hg : tr.tracker.groups[i]? = some none)
    (hc : tr.tracker.collections[j]? = some none) :
    (∀ s alpha timestep n,
      EngineCall.modifyGroupNumActive i n ∉ update tr s alpha timestep) ∧
    (∀ s alpha timestep n,
      EngineCall.modifyCollectionNumActive j n ∉ update tr s alpha timestep) ∧
    (∀ (steps : List (SimState × ℚ × ℕ)) (f : MeldForce),
      (steps.foldl (applyStep tr) f).groups[i]? = f.groups[i]? ∧
      (steps.foldl (applyStep tr) f).collections[j]? = f.collections[j]?) := by
  have hng : ∀ s alpha timestep n,
      EngineCall.modifyGroupNumActive i n ∉ update tr s alpha timestep := by
    intro s alpha timestep n hmem
    obtain ⟨g, hgg⟩ := update_modifyGroup_mem hmem
    rw [hg] at hgg
    exact Option.noConfusion (Option.some.inj hgg)
  have hnc : ∀ s alpha timestep n,
      EngineCall.modifyCollectionNumActive j n ∉ update tr s alpha timestep := by
    intro s alpha timestep n hmem
    obtain ⟨c, hcc⟩ := update_modifyCollection_mem hmem
    rw [hc] at hcc
    exact Option.noConfusion (Option.some.inj hcc)
  refine ⟨hng, hnc, ?_⟩
  intro steps
  induction steps with
  | nil => intro f; exact ⟨rfl, rfl⟩
  | cons st steps ih =>
      intro f
      have h1 := ih (applyStep tr f st)
      constructor
      · rw [List.foldl_cons, h1.1]
        exact applyCalls_preserves_group i _ f (hng st.1 st.2.1 st.2.2)
      · rw [List.foldl_cons, h1.2]
        exact applyCalls_preserves_collection j _ f (hnc st.1 st.2.1 st.2.2)

/-- C5 witness: in `tr5` both sequences hold a sentinel at position 0; no
update call targets them and the concrete engine state `f5` keeps its
entries at position 0 across two update steps. -/
theorem sentinel_entries_never_updated_witness :
    tr5.tracker.groups[0]? = some none ∧
    tr5.tracker.collections[0]? = some none ∧
    EngineCall.modifyGroupNumActive 0 9 ∉ update tr5 s0 1 2 ∧
    (([(s0, 1, 2), (s0, 0, 7)] : List (SimState × ℚ × ℕ)).foldl
        (applyStep tr5) f5).groups[0]? = f5.groups[0]? ∧
    (([(s0, 1, 2), (s0, 0, 7)] : List (SimState × ℚ × ℕ)).foldl
        (applyStep tr5) f5).collections[0]? = f5.collections[0]? :=
  ⟨rfl, rfl,
   (sentinel_entries_never_updated tr5 0 0 rfl rfl).1 s0 1 2 9,
   ((sentinel_entries_never_updated tr5 0 0 rfl rfl).2.2 _ f5).1,
   ((sentinel_entries_never_updated tr5 0 0 rfl rfl).2.2 _ f5).2⟩

/-- C1 (code bug evaluation): for the collection `collC1` whose own
`num_active` is 5 but whose single group's `num_active` is 1, the setup
path creates the collection in the engine with 1 — the leaked loop
variable `group`'s selector — although the collection's own resolved
`num_active` is 5, which is also the value the per-step update path pushes
for the very same collection.  So the creation call does not use the
collection's own selector, contradicting the claim, and contradicting the
module's own update path. -/
theorem collection_created_with_group_num_active :
    ∃ tr1 sys1, add_interactions trC1 s0 sys0 = .ok (tr1, sys1) ∧
      tr1.force.collections.map Prod.snd = [1] ∧
      handle_num_active pm0 collC1.num_active s0 = 5 ∧
      tr1.force.collections.map Prod.snd ≠
        [handle_num_active pm0 collC1.num_active s0] ∧
      EngineCall.modifyCollectionNumActive 0 5 ∈ update tr1 s0 0 0 := by
  refine ⟨(exceptOr (trC1, sys0) (add_interactions trC1 s0 sys0)).1,
    (exceptOr (trC1, sys0) (add_interactions trC1 s0 sys0)).2,
    rfl, rfl, rfl, by decide, by decide⟩

theorem regTracker_nil (tk : Tracker) : regTracker tk [] = tk := by
  cases tk
  simp [regTracker]

theorem regForce_nil (f : MeldForce) : regForce f [] = f := by
  cases f
  simp [regForce]

theorem totalRestraints_addRestraint (f : MeldForce) (k : Kind)
    (ps : List PVal) :
    ((f.addRestraint k ps).1).totalRestraints = f.totalRestraints + 1 := by
  cases k <;>
    simp [MeldForce.addRestraint, MeldForce.totalRestraints] <;> omega

theorem regTracker_cons_distance (tk : Tracker) (d : DistanceRestraint)
    (rs : List Restraint) :
    regTracker { tk with distance_restraints := tk.distance_restraints ++ [d] }
      rs = regTracker tk (.distance d :: rs) := by
  simp [regTracker, distOf, hyperOf, torsOf, distProfOf, torsProfOf, gmmOf,
    List.append_assoc]

theorem regForce_cons_distance (f : MeldForce) (d : DistanceRestraint)
    (rs : List Restraint) :
    regForce { f with distance := f.distance ++ [distAddParams d 0 0] } rs =
      regForce f (.distance d :: rs) := by
  simp [regForce, distOf, hyperOf, torsOf, distProfOf, torsProfOf, gmmOf,
    List.append_assoc]

theorem regTracker_cons_hyperbolic (tk : Tracker) (d : HyperbolicDistanceRestraint)
    (rs : List Restraint) :
    regTracker { tk with hyperbolic_distance_restraints := tk.hyperbolic_distance_restraints ++ [d] }
      rs = regTracker tk (.hyperbolic d :: rs) := by
  simp [regTracker, distOf, hyperOf, torsOf, distProfOf, torsProfOf, gmmOf,
    List.append_assoc]

theorem regForce_cons_hyperbolic (f : MeldForce) (d : HyperbolicDistanceRestraint)
    (rs : List Restraint) :
    regForce { f with hyperbolic := f.hyperbolic ++ [hyperAddParams d 0 0] } rs =
      regForce f (.hyperbolic d :: rs) := by
  simp [regForce, distOf, hyperOf, torsOf, distProfOf, torsProfOf, gmmOf,
    List.append_assoc]

theorem regTracker_cons_torsion (tk : Tracker) (d : TorsionRestraint)
    (rs : List Restraint) :
    regTracker { tk with torsion_restraints := tk.torsion_restraints ++ [d] }
      rs = regTracker tk (.torsion d :: rs) := by
  simp [regTracker, distOf, hyperOf, torsOf, distProfOf, torsProfOf, gmmOf,
    List.append_assoc]

theorem regForce_cons_torsion (f : MeldForce) (d : TorsionRestraint)
    (rs : List Restraint) :
    regForce { f with torsion := f.torsion ++ [torsAddParams d 0 0] } rs =
      regForce f (.torsion d :: rs) := by
  simp [regForce, distOf, hyperOf, torsOf, distProfOf, torsProfOf, gmmOf,
    List.append_assoc]

theorem regTracker_cons_distProf (tk : Tracker) (d : DistProfileRestraint)
    (rs : List Restraint) :
    regTracker { tk with dist_prof_restraints := tk.dist_prof_restraints ++ [d] }
      rs = regTracker tk (.distProf d :: rs) := by
  simp [regTracker, distOf, hyperOf, torsOf, distProfOf, torsProfOf, gmmOf,
    List.append_assoc]

theorem regForce_cons_distProf (f : MeldForce) (d : DistProfileRestraint)
    (rs : List Restraint) :
    regForce { f with distProf := f.distProf ++ [distProfAddParams d 0 0] } rs =
      regForce f (.distProf d :: rs) := by
  simp [regForce, distOf, hyperOf, torsOf, distProfOf, torsProfOf, gmmOf,
    List.append_assoc]

theorem regTracker_cons_torsProf (tk : Tracker) (d : TorsProfileRestraint)
    (rs : List Restraint) :
    regTracker { tk with torsion_profile_restraints := tk.torsion_profile_restraints ++ [d] }
      rs = regTracker tk (.torsProf d :: rs) := by
  simp [regTracker, distOf, hyperOf, torsOf, distProfOf, torsProfOf, gmmOf,
    List.append_assoc]

theorem regForce_cons_torsProf (f : MeldForce) (d : TorsProfileRestraint)
    (rs : List Restraint) :
    regForce { f with torsProf := f.torsProf ++ [torsProfAddParams d 0 0] } rs =
      regForce f (.torsProf d :: rs) := by
  simp [regForce, distOf, hyperOf, torsOf, distProfOf, torsProfOf, gmmOf,
    List.append_assoc]

theorem regTracker_cons_gmm (tk : Tracker) (d : GMMDistanceRestraint)
    (rs : List Restraint) :
    regTracker { tk with gmm_restraints := tk.gmm_restraints ++ [d] }
      rs = regTracker tk (.gmm d :: rs) := by
  simp [regTracker, distOf, hyperOf, torsOf, distProfOf, torsProfOf, gmmOf,
    List.append_assoc]

theorem regForce_cons_gmm (f : MeldForce) (d : GMMDistanceRestraint)
    (rs : List Restraint) :
    regForce { f with gmm := f.gmm ++ [gmmAddParams d 0 0] } rs =
      regForce f (.gmm d :: rs) := by
  simp [regForce, distOf, hyperOf, torsOf, distProfOf, torsProfOf, gmmOf,
    List.append_assoc]

theorem registerList_ok :
    ∀ (rs : List Restraint) (tk : Tracker) (f : MeldForce)
      (out : Tracker × MeldForce × List ℕ),
      registerList tk f rs = .ok out →
      out.1 = regTracker tk rs ∧ out.2.1 = regForce f rs ∧
        out.2.2 = List.range' f.totalRestraints rs.length := by
  intro rs
  induction rs with
  | nil =>
      intro tk f out h
      simp only [registerList] at h
      obtain rfl : ((tk, f, ([] : List ℕ)) : Tracker × MeldForce × List ℕ)
        = out := Except.ok.inj h
      exact ⟨(regTracker_nil tk).symm, (regForce_nil f).symm, rfl⟩
  | cons r rs ih =>
      intro tk f out h
      cases r with
      | unknown tag => simp [registerList, _add_meld_restraint] at h
      | nonSelectable tag => simp [registerList, _add_meld_restraint] at h
      | distance d =>
          simp only [registerList, _add_meld_restraint,
            MeldForce.addRestraint] at h
          split at h
          · exact absurd h (by simp)
          · next tk2 f2 idxs2 heq =>
              obtain ⟨h1, h2, h3⟩ := ih _ _ _ heq
              dsimp only at h1 h2 h3
              obtain rfl : ((tk2, f2, f.totalRestraints :: idxs2) :
                  Tracker × MeldForce × List ℕ) = out := Except.ok.inj h
              refine ⟨?_, ?_, ?_⟩
              · show tk2 = _
                rw [h1, regTracker_cons_distance]
              · show f2 = _
                rw [h2, regForce_cons_distance]
              · show f.totalRestraints :: idxs2 = _
                rw [List.length_cons, List.range'_succ, h3]
                congr 2
                simp only [MeldForce.totalRestraints, List.length_append,
                  List.length_singleton]
                omega
      | hyperbolic d =>
          simp only [registerList, _add_meld_restraint,
            MeldForce.addRestraint] at h
          split at h
          · exact absurd h (by simp)
          · next tk2 f2 idxs2 heq =>
              obtain ⟨h1, h2, h3⟩ := ih _ _ _ heq
              dsimp only at h1 h2 h3
              obtain rfl : ((tk2, f2, f.totalRestraints :: idxs2) :
                  Tracker × MeldForce × List ℕ) = out := Except.ok.inj h
              refine ⟨?_, ?_, ?_⟩
              · show tk2 = _
                rw [h1, regTracker_cons_hyperbolic]
              · show f2 = _
                rw [h2, regForce_cons_hyperbolic]
              · show f.totalRestraints :: idxs2 = _
                rw [List.length_cons, List.range'_succ, h3]
                congr 2
                simp only [MeldForce.totalRestraints, List.length_append,
                  List.length_singleton]
                omega
      | torsion d =>
          simp only [registerList, _add_meld_restraint,
            MeldForce.addRestraint] at h
          split at h
          · exact absurd h (by simp)
          · next tk2 f2 idxs2 heq =>
              obtain ⟨h1, h2, h3⟩ := ih _ _ _ heq
              dsimp only at h1 h2 h3
              obtain rfl : ((tk2, f2, f.totalRestraints :: idxs2) :
                  Tracker × MeldForce × List ℕ) = out := Except.ok.inj h
              refine ⟨?_, ?_, ?_⟩
              · show tk2 = _
                rw [h1, regTracker_cons_torsion]
              · show f2 = _
                rw [h2, regForce_cons_torsion]
              · show f.totalRestraints :: idxs2 = _
                rw [List.length_cons, List.range'_succ, h3]
                congr 2
                simp only [MeldForce.totalRestraints, List.length_append,
                  List.length_singleton]
                omega
      | distProf d =>
          simp only [registerList, _add_meld_restraint,
            MeldForce.addRestraint] at h
          split at h
          · exact absurd h (by simp)
          · next tk2 f2 idxs2 heq =>
              obtain ⟨h1, h2, h3⟩ := ih _ _ _ heq
              dsimp only at h1 h2 h3
              obtain rfl : ((tk2, f2, f.totalRestraints :: idxs2) :
                  Tracker × MeldForce × List ℕ) = out := Except.ok.inj h
              refine ⟨?_, ?_, ?_⟩
              · show tk2 = _
                rw [h1, regTracker_cons_distProf]
              · show f2 = _
                rw [h2, regForce_cons_distProf]
              · show f.totalRestraints :: idxs2 = _
                rw [List.length_cons, List.range'_succ, h3]
                congr 2
                simp only [MeldForce.totalRestraints, List.length_append,
                  List.length_singleton]
                omega
      | torsProf d =>
          simp only [registerList, _add_meld_restraint,
            MeldForce.addRestraint] at h
          split at h
          · exact absurd h (by simp)
          · next tk2 f2 idxs2 heq =>
              obtain ⟨h1, h2, h3⟩ := ih _ _ _ heq
              dsimp only at h1 h2 h3
              obtain rfl : ((tk2, f2, f.totalRestraints :: idxs2) :
                  Tracker × MeldForce × List ℕ) = out := Except.ok.inj h
              refine ⟨?_, ?_, ?_⟩
              · show tk2 = _
                rw [h1, regTracker_cons_torsProf]
              · show f2 = _
                rw [h2, regForce_cons_torsProf]
              · show f.totalRestraints :: idxs2 = _
                rw [List.length_cons, List.range'_succ, h3]
                congr 2
                simp only [MeldForce.totalRestraints, List.length_append,
                  List.length_singleton]
                omega
      | gmm d =>
          simp only [registerList, _add_meld_restraint,
            MeldForce.addRestraint] at h
          split at h
          · exact absurd h (by simp)
          · next tk2 f2 idxs2 heq =>
              obtain ⟨h1, h2, h3⟩ := ih _ _ _ heq
              dsimp only at h1 h2 h3
              obtain rfl : ((tk2, f2, f.totalRestraints :: idxs2) :
                  Tracker × MeldForce × List ℕ) = out := Except.ok.inj h
              refine ⟨?_, ?_, ?_⟩
              · show tk2 = _
                rw [h1, regTracker_cons_gmm]
              · show f2 = _
                rw [h2, regForce_cons_gmm]
              · show f.totalRestraints :: idxs2 = _
                rw [List.length_cons, List.range'_succ, h3]
                congr 2
                simp only [MeldForce.totalRestraints, List.length_append,
                  List.length_singleton]
                omega

theorem regTracker_append (tk : Tracker) (a b : List Restraint) :
    regTracker (regTracker tk a) b = regTracker tk (a ++ b) := by
  simp [regTracker, List.filterMap_append, List.append_assoc]

theorem regForce_append (f : MeldForce) (a b : List Restraint) :
    regForce (regForce f a) b = regForce f (a ++ b) := by
  simp [regForce, List.filterMap_append, List.map_append, List.append_assoc]

set_option maxHeartbeats 1000000 in
theorem alwaysOnLoop_ok :
    ∀ (rs : List Restraint) (tk : Tracker) (f : MeldForce)
      (out : Tracker × MeldForce × List ℕ),
      alwaysOnLoop tk f rs = .ok out →
      out.1 = { regTracker tk rs with
        groups := tk.groups ++ List.replicate rs.length none } ∧
      out.2.1.distance = (regForce f rs).distance ∧
      out.2.1.hyperbolic = (regForce f rs).hyperbolic ∧
      out.2.1.torsion = (regForce f rs).torsion ∧
      out.2.1.distProf = (regForce f rs).distProf ∧
      out.2.1.torsProf = (regForce f rs).torsProf ∧
      out.2.1.gmm = (regForce f rs).gmm ∧
      out.2.1.collections = f.collections ∧
      out.2.1.groups.length = f.groups.length + rs.length ∧
      out.2.2.length = rs.length ∧
      out.2.1.groups.map Prod.snd =
        f.groups.map Prod.snd ++ List.replicate rs.length (1 : ℤ) := by
  intro rs
  induction rs with
  | nil =>
      intro tk f out h
      simp only [alwaysOnLoop] at h
      rw [Except.ok.injEq] at h
      subst h
      cases tk
      cases f
      simp [regTracker, regForce]
  | cons r rs ih =>
      intro tk f out h
      cases r with
      | unknown tag => simp [alwaysOnLoop, _add_meld_restraint] at h
      | nonSelectable tag => simp [alwaysOnLoop, _add_meld_restraint] at h
      | distance d =>
          simp only [alwaysOnLoop, _add_meld_restraint, MeldForce.addRestraint,
            MeldForce.addGroup] at h
          split at h
          · exact absurd h (by simp)
          · next tk3 f3 gl heq =>
              obtain ⟨h1, h2, h3, h4, h5, h6, h7, h8, h9, h10, h11⟩ :=
                ih _ _ _ heq
              rw [Except.ok.injEq] at h
              subst h
              clear heq ih
              dsimp only at h1 h2 h3 h4 h5 h6 h7 h8 h9 h10 h11 ⊢
              refine ⟨?_, ?_, ?_, ?_, ?_, ?_, ?_, ?_, ?_, ?_, ?_⟩ <;>
                first
                  | (rw [h11]
                     dsimp only
                     simp [List.map_append, List.replicate_succ,
                       List.append_assoc])
                  | (simp_all [regTracker, regForce, distOf, hyperOf, torsOf, distProfOf, torsProfOf, gmmOf,
                      List.append_assoc, List.replicate_succ] <;> omega)
      | hyperbolic d =>
          simp only [alwaysOnLoop, _add_meld_restraint, MeldForce.addRestraint,
            MeldForce.addGroup] at h
          split at h
          · exact absurd h (by simp)
          · next tk3 f3 gl heq =>
              obtain ⟨h1, h2, h3, h4, h5, h6, h7, h8, h9, h10, h11⟩ :=
                ih _ _ _ heq
              rw [Except.ok.injEq] at h
              subst h
              clear heq ih
              dsimp only at h1 h2 h3 h4 h5 h6 h7 h8 h9 h10 h11 ⊢
              refine ⟨?_, ?_, ?_, ?_, ?_, ?_, ?_, ?_, ?_, ?_, ?_⟩ <;>
                first
                  | (rw [h11]
                     dsimp only
                     simp [List.map_append, List.replicate_succ,
                       List.append_assoc])
                  | (simp_all [regTracker, regForce, distOf, hyperOf, torsOf, distProfOf, torsProfOf, gmmOf,
                      List.append_assoc, List.replicate_succ] <;> omega)
      | torsion d =>
          simp only [alwaysOnLoop, _add_meld_restraint, MeldForce.addRestraint,
            MeldForce.addGroup] at h
          split at h
          · exact absurd h (by simp)
          · next tk3 f3 gl heq =>
              obtain ⟨h1, h2, h3, h4, h5, h6, h7, h8, h9, h10, h11⟩ :=
                ih _ _ _ heq
              rw [Except.ok.injEq] at h
              subst h
              clear heq ih
              dsimp only at h1 h2 h3 h4 h5 h6 h7 h8 h9 h10 h11 ⊢
              refine ⟨?_, ?_, ?_, ?_, ?_, ?_, ?_, ?_, ?_, ?_, ?_⟩ <;>
                first
                  | (rw [h11]
                     dsimp only
                     simp [List.map_append, List.replicate_succ,
                       List.append_assoc])
                  | (simp_all [regTracker, regForce, distOf, hyperOf, torsOf, distProfOf, torsProfOf, gmmOf,
                      List.append_assoc, List.replicate_succ] <;> omega)
      | distProf d =>
          simp only [alwaysOnLoop, _add_meld_restraint, MeldForce.addRestraint,
            MeldForce.addGroup] at h
          split at h
          · exact absurd h (by simp)
          · next tk3 f3 gl heq =>
              obtain ⟨h1, h2, h3, h4, h5, h6, h7, h8, h9, h10, h11⟩ :=
                ih _ _ _ heq
              rw [Except.ok.injEq] at h
              subst h
              clear heq ih
              dsimp only at h1 h2 h3 h4 h5 h6 h7 h8 h9 h10 h11 ⊢
              refine ⟨?_, ?_, ?_, ?_, ?_, ?_, ?_, ?_, ?_, ?_, ?_⟩ <;>
                first
                  | (rw [h11]
                     dsimp only
                     simp [List.map_append, List.replicate_succ,
                       List.append_assoc])
                  | (simp_all [regTracker, regForce, distOf, hyperOf, torsOf, distProfOf, torsProfOf, gmmOf,
                      List.append_assoc, List.replicate_succ] <;> omega)
      | torsProf d =>
          simp only [alwaysOnLoop, _add_meld_restraint, MeldForce.addRestraint,
            MeldForce.addGroup] at h
          split at h
          · exact absurd h (by simp)
          · next tk3 f3 gl heq =>
              obtain ⟨h1, h2, h3, h4, h5, h6, h7, h8, h9, h10, h11⟩ :=
                ih _ _ _ heq
              rw [Except.ok.injEq] at h
              subst h
              clear heq ih
              dsimp only at h1 h2 h3 h4 h5 h6 h7 h8 h9 h10 h11 ⊢
              refine ⟨?_, ?_, ?_, ?_, ?_, ?_, ?_, ?_, ?_, ?_, ?_⟩ <;>
                first
                  | (rw [h11]
                     dsimp only
                     simp [List.map_append, List.replicate_succ,
                       List.append_assoc])
                  | (simp_all [regTracker, regForce, distOf, hyperOf, torsOf, distProfOf, torsProfOf, gmmOf,
                      List.append_assoc, List.replicate_succ] <;> omega)
      | gmm d =>
          simp only [alwaysOnLoop, _add_meld_restraint, MeldForce.addRestraint,
            MeldForce.addGroup] at h
          split at h
          · exact absurd h (by simp)
          · next tk3 f3 gl heq =>
              obtain ⟨h1, h2, h3, h4, h5, h6, h7, h8, h9, h10, h11⟩ :=
                ih _ _ _ heq
              rw [Except.ok.injEq] at h
              subst h
              clear heq ih
              dsimp only at h1 h2 h3 h4 h5 h6 h7 h8 h9 h10 h11 ⊢
              refine ⟨?_, ?_, ?_, ?_, ?_, ?_, ?_, ?_, ?_, ?_, ?_⟩ <;>
                first
                  | (rw [h11]
                     dsimp only
                     simp [List.map_append, List.replicate_succ,
                       List.append_assoc])
                  | (simp_all [regTracker, regForce, distOf, hyperOf, torsOf, distProfOf, torsProfOf, gmmOf,
                      List.append_assoc, List.replicate_succ] <;> omega)

theorem groupLoop_ok (pm : ParamManager) (st : SimState) :
    ∀ (gs : List RestraintGroup) (tk : Tracker) (f : MeldForce)
      (out : Tracker × MeldForce × List ℕ),
      groupLoop pm st tk f gs = .ok out →
      out.1 = { regTracker tk (gs.flatMap fun g => g.restraints) with
        groups := tk.groups ++ gs.map some } ∧
      out.2.1.distance =
        (regForce f (gs.flatMap fun g => g.restraints)).distance ∧
      out.2.1.hyperbolic =
        (regForce f (gs.flatMap fun g => g.restraints)).hyperbolic ∧
      out.2.1.torsion =
        (regForce f (gs.flatMap fun g => g.restraints)).torsion ∧
      out.2.1.distProf =
        (regForce f (gs.flatMap fun g => g.restraints)).distProf ∧
      out.2.1.torsProf =
        (regForce f (gs.flatMap fun g => g.restraints)).torsProf ∧
      out.2.1.gmm = (regForce f (gs.flatMap fun g => g.restraints)).gmm ∧
      out.2.1.collections = f.collections ∧
      out.2.1.groups.map Prod.snd = f.groups.map Prod.snd ++
        gs.map (fun g => handle_num_active pm g.num_active st) ∧
      out.2.1.groups.length = f.groups.length + gs.length ∧
      out.2.2.length = gs.length := by
  intro gs
  induction gs with
  | nil =>
      intro tk f out h
      simp only [groupLoop] at h
      rw [Except.ok.injEq] at h
      subst h
      cases tk
      cases f
      simp [regTracker, regForce]
  | cons g gs ih =>
      intro tk f out h
      simp only [groupLoop, MeldForce.addGroup] at h
      split at h
      · exact absurd h (by simp)
      · next tk1 f1 ridx heq1 =>
          split at h
          · exact absurd h (by simp)
          · next tk3 f3 gis heq2 =>
              rw [Except.ok.injEq] at h
              subst h
              obtain ⟨g1, g2, g3⟩ := registerList_ok _ _ _ _ heq1
              dsimp only at g1 g2 g3
              subst g1
              subst g2
              obtain ⟨k1, k2, k3, k4, k5, k6, k7, k8, k9, k10, k11⟩ :=
                ih _ _ _ heq2
              clear heq1 heq2 ih
              dsimp only at k1 k2 k3 k4 k5 k6 k7 k8 k9 k10 k11 ⊢
              refine ⟨?_, ?_, ?_, ?_, ?_, ?_, ?_, ?_, ?_, ?_, ?_⟩ <;>
                simp_all [regTracker, regForce, List.filterMap_append,
                  List.flatMap_cons, List.append_assoc] <;> omega

theorem collLoop_ok (pm : ParamManager) (st : SimState) :
    ∀ (cs : List SelectivelyActiveCollection) (lg : Option RestraintGroup)
      (tk : Tracker) (f : MeldForce) (out : Tracker × MeldForce),
      collLoop pm st tk f lg cs = .ok out →
      out.1 = { regTracker tk
          (cs.flatMap fun c => c.groups.flatMap fun g => g.restraints) with
        groups := tk.groups ++ (cs.flatMap fun c => c.groups).map some,
        collections := tk.collections ++ cs.map some } ∧
      out.2.distance = (regForce f
        (cs.flatMap fun c => c.groups.flatMap fun g => g.restraints)).distance ∧
      out.2.hyperbolic = (regForce f
        (cs.flatMap fun c => c.groups.flatMap fun g => g.restraints)).hyperbolic ∧
      out.2.torsion = (regForce f
        (cs.flatMap fun c => c.groups.flatMap fun g => g.restraints)).torsion ∧
      out.2.distProf = (regForce f
        (cs.flatMap fun c => c.groups.flatMap fun g => g.restraints)).distProf ∧
      out.2.torsProf = (regForce f
        (cs.flatMap fun c => c.groups.flatMap fun g => g.restraints)).torsProf ∧
      out.2.gmm = (regForce f
        (cs.flatMap fun c => c.groups.flatMap fun g => g.restraints)).gmm ∧
      out.2.groups.map Prod.snd = f.groups.map Prod.snd ++
        (cs.flatMap fun c => c.groups).map
          (fun g => handle_num_active pm g.num_active st) ∧
      out.2.groups.length =
        f.groups.length + (cs.flatMap fun c => c.groups).length ∧
      out.2.collections.length = f.collections.length + cs.length ∧
      out.2.collections.map Prod.snd =
        f.collections.map Prod.snd ++ leakedVals pm st lg cs := by
  intro cs
  induction cs with
  | nil =>
      intro lg tk f out h
      simp only [collLoop] at h
      rw [Except.ok.injEq] at h
      subst h
      cases tk
      cases f
      simp [regTracker, regForce, leakedVals]
  | cons c cs ih =>
      intro lg tk f out h
      simp only [collLoop, MeldForce.addCollection] at h
      split at h
      · exact absurd h (by simp)
      · next tk1 f1 gidx heq1 =>
          obtain ⟨g1, g2, g3, g4, g5, g6, g7, g8, g9, g10, g11⟩ :=
            groupLoop_ok pm st _ _ _ _ heq1
          dsimp only at g1 g2 g3 g4 g5 g6 g7 g8 g9 g10 g11
          subst g1
          cases hlast : c.groups.getLast? with
          | some g =>
              rw [hlast] at h
              dsimp only at h
              obtain ⟨k1, k2, k3, k4, k5, k6, k7, k8, k9, k10, k11⟩ :=
                ih _ _ _ _ h
              clear h heq1 ih
              dsimp only at k1 k2 k3 k4 k5 k6 k7 k8 k9 k10 k11 ⊢
              refine ⟨?_, ?_, ?_, ?_, ?_, ?_, ?_, ?_, ?_, ?_, ?_⟩
              · rw [k1]
                simp [regTracker, List.filterMap_append, List.flatMap_cons,
                  List.append_assoc]
              · rw [k2]
                simp [regForce, g2, List.filterMap_append, List.flatMap_cons,
                  List.append_assoc]
              · rw [k3]
                simp [regForce, g3, List.filterMap_append, List.flatMap_cons,
                  List.append_assoc]
              · rw [k4]
                simp [regForce, g4, List.filterMap_append, List.flatMap_cons,
                  List.append_assoc]
              · rw [k5]
                simp [regForce, g5, List.filterMap_append, List.flatMap_cons,
                  List.append_assoc]
              · rw [k6]
                simp [regForce, g6, List.filterMap_append, List.flatMap_cons,
                  List.append_assoc]
              · rw [k7]
                simp [regForce, g7, List.filterMap_append, List.flatMap_cons,
                  List.append_assoc]
              · rw [k8]
                simp [g9, List.flatMap_cons, List.map_append,
                  List.append_assoc]
              · rw [k9]
                rw [g10]
                simp only [List.flatMap_cons, List.length_append]
                omega
              · rw [k10]
                simp only [List.length_append, List.length_cons,
                  List.length_nil, g8]
                omega
              · rw [k11]
                simp [leakedVals, hlast, g8, List.map_append,
                  List.append_assoc]
          | none =>
              rw [hlast] at h
              dsimp only at h
              cases lg with
              | none => simp at h
              | some g =>
                  dsimp only at h
                  obtain ⟨k1, k2, k3, k4, k5, k6, k7, k8, k9, k10, k11⟩ :=
                    ih _ _ _ _ h
                  clear h heq1 ih
                  dsimp only at k1 k2 k3 k4 k5 k6 k7 k8 k9 k10 k11 ⊢
                  refine ⟨?_, ?_, ?_, ?_, ?_, ?_, ?_, ?_, ?_, ?_, ?_⟩
                  · rw [k1]
                    simp [regTracker, List.filterMap_append, List.flatMap_cons,
                      List.append_assoc]
                  · rw [k2]
                    simp [regForce, g2, List.filterMap_append, List.flatMap_cons,
                      List.append_assoc]
                  · rw [k3]
                    simp [regForce, g3, List.filterMap_append, List.flatMap_cons,
                      List.append_assoc]
                  · rw [k4]
                    simp [regForce, g4, List.filterMap_append, List.flatMap_cons,
                      List.append_assoc]
                  · rw [k5]
                    simp [regForce, g5, List.filterMap_append, List.flatMap_cons,
                      List.append_assoc]
                  · rw [k6]
                    simp [regForce, g6, List.filterMap_append, List.flatMap_cons,
                      List.append_assoc]
                  · rw [k7]
                    simp [regForce, g7, List.filterMap_append, List.flatMap_cons,
                      List.append_assoc]
                  · rw [k8]
                    simp [g9, List.flatMap_cons, List.map_append,
                      List.append_assoc]
                  · rw [k9]
                    rw [g10]
                    simp only [List.flatMap_cons, List.length_append]
                    omega
                  · rw [k10]
                    simp only [List.length_append, List.length_cons,
                      List.length_nil, g8]
                    omega
                  · rw [k11]
                    simp [leakedVals, hlast, g8, List.map_append,
                      List.append_assoc]

theorem add_interactions_ok (tr : MeldRestraintTransformer) (st : SimState)
    (sys : MMSystem) (out : MeldRestraintTransformer × MMSystem)
    (ha : tr.active = true) (h : add_interactions tr st sys = .ok out) :
    out.1.tracker = { regTracker tr.tracker (regOrder tr) with
      groups := tr.tracker.groups ++
        (List.replicate tr.always_on.length none ++
          (tr.selective_on.flatMap fun c => c.groups).map some),
      collections := tr.tracker.collections ++
        ((if tr.always_on.isEmpty then [] else [none]) ++
          tr.selective_on.map some) } ∧
    out.1.force.distance =
      ((regOrder tr).filterMap distOf).map (fun r => distAddParams r 0 0) ∧
    out.1.force.hyperbolic =
      ((regOrder tr).filterMap hyperOf).map (fun r => hyperAddParams r 0 0) ∧
    out.1.force.torsion =
      ((regOrder tr).filterMap torsOf).map (fun r => torsAddParams r 0 0) ∧
    out.1.force.distProf =
      ((regOrder tr).filterMap distProfOf).map (fun r => distProfAddParams r 0 0) ∧
    out.1.force.torsProf =
      ((regOrder tr).filterMap torsProfOf).map (fun r => torsProfAddParams r 0 0) ∧
    out.1.force.gmm =
      ((regOrder tr).filterMap gmmOf).map (fun r => gmmAddParams r 0 0) ∧
    out.1.force.groups.length = tr.always_on.length +
      (tr.selective_on.flatMap fun c => c.groups).length ∧
    out.1.force.collections.length =
      (if tr.always_on.isEmpty then 0 else 1) + tr.selective_on.length ∧
    out.1.param_manager = tr.param_manager ∧
    out.1.always_on = tr.always_on ∧
    out.1.selective_on = tr.selective_on ∧
    out.1.active = tr.active ∧
    out.2.forces = sys.forces ++ [out.1.force] ∧
    out.1.force.groups.map Prod.snd =
      List.replicate tr.always_on.length (1 : ℤ) ++
        (tr.selective_on.flatMap fun c => c.groups).map
          (fun g => handle_num_active tr.param_manager g.num_active st) ∧
    out.1.force.collections.map Prod.snd =
      (if tr.always_on.isEmpty then [] else [(tr.always_on.length : ℤ)]) ++
        leakedVals tr.param_manager st none tr.selective_on := by
  cases hae : tr.always_on.isEmpty with
  | true =>
      have haeL : tr.always_on = [] := by
        cases hl : tr.always_on
        · rfl
        · rw [hl] at hae
          simp at hae
      simp only [add_interactions, ha, hae, Bool.not_true, if_true,
        Bool.false_eq_true, if_false] at h
      split at h
      · simp at h
      · next tkF fF heqC =>
          rw [Except.ok.injEq] at h
          subst h
          obtain ⟨k1, k2, k3, k4, k5, k6, k7, k8, k9, k10, k11⟩ :=
            collLoop_ok _ _ _ _ _ _ _ heqC
          clear heqC
          dsimp only at k1 k2 k3 k4 k5 k6 k7 k8 k9 k10 k11 ⊢
          refine ⟨?_, ?_, ?_, ?_, ?_, ?_, ?_, ?_, ?_, rfl, rfl, rfl, ha.symm,
            rfl, ?_, ?_⟩
          · rw [k1]
            simp [regTracker, regOrder, haeL, List.filterMap_append,
              List.append_assoc]
          · rw [k2]
            simp [regForce, regOrder, haeL, emptyForce, List.filterMap_append,
              List.map_append, List.append_assoc]
          · rw [k3]
            simp [regForce, regOrder, haeL, emptyForce, List.filterMap_append,
              List.map_append, List.append_assoc]
          · rw [k4]
            simp [regForce, regOrder, haeL, emptyForce, List.filterMap_append,
              List.map_append, List.append_assoc]
          · rw [k5]
            simp [regForce, regOrder, haeL, emptyForce, List.filterMap_append,
              List.map_append, List.append_assoc]
          · rw [k6]
            simp [regForce, regOrder, haeL, emptyForce, List.filterMap_append,
              List.map_append, List.append_assoc]
          · rw [k7]
            simp [regForce, regOrder, haeL, emptyForce, List.filterMap_append,
              List.map_append, List.append_assoc]
          · rw [k9]
            simp [emptyForce, haeL]
          · rw [k10]
            simp [emptyForce]
          · rw [k8]
            simp [emptyForce, haeL]
          · rw [k11]
            simp [emptyForce, hae]
  | false =>
      simp only [add_interactions, ha, hae, Bool.not_false, if_true,
        MeldForce.addCollection] at h
      split at h
      · simp at h
      · next tkM fM heqStep =>
          split at heqStep
          · simp at heqStep
          · next tkA fA gl heqA =>
              rw [Except.ok.injEq, Prod.mk.injEq] at heqStep
              obtain ⟨hTkM, hFM⟩ := heqStep
              subst hTkM
              subst hFM
              split at h
              · simp at h
              · next tkF fF heqC =>
                  rw [Except.ok.injEq] at h
                  subst h
                  obtain ⟨a1, a2, a3, a4, a5, a6, a7, a8, a9, a10, a11⟩ :=
                    alwaysOnLoop_ok _ _ _ _ heqA
                  dsimp only at a1 a2 a3 a4 a5 a6 a7 a8 a9 a10 a11
                  subst a1
                  obtain ⟨k1, k2, k3, k4, k5, k6, k7, k8, k9, k10, k11⟩ :=
                    collLoop_ok _ _ _ _ _ _ _ heqC
                  clear heqA heqC
                  dsimp only at k1 k2 k3 k4 k5 k6 k7 k8 k9 k10 k11 ⊢
                  refine ⟨?_, ?_, ?_, ?_, ?_, ?_, ?_, ?_, ?_, rfl, rfl, rfl,
                    ha.symm, rfl, ?_, ?_⟩
                  · rw [k1]
                    simp [regTracker, regOrder, hae, List.filterMap_append,
                      List.append_assoc]
                  · rw [k2]
                    simp [regForce, a2, regOrder, emptyForce,
                      List.filterMap_append, List.map_append, List.append_assoc]
                  · rw [k3]
                    simp [regForce, a3, regOrder, emptyForce,
                      List.filterMap_append, List.map_append, List.append_assoc]
                  · rw [k4]
                    simp [regForce, a4, regOrder, emptyForce,
                      List.filterMap_append, List.map_append, List.append_assoc]
                  · rw [k5]
                    simp [regForce, a5, regOrder, emptyForce,
                      List.filterMap_append, List.map_append, List.append_assoc]
                  · rw [k6]
                    simp [regForce, a6, regOrder, emptyForce,
                      List.filterMap_append, List.map_append, List.append_assoc]
                  · rw [k7]
                    simp [regForce, a7, regOrder, emptyForce,
                      List.filterMap_append, List.map_append, List.append_assoc]
                  · rw [k9]
                    rw [a9]
                    simp [emptyForce]
                  · rw [k10]
                    simp only [List.length_append, List.length_cons,
                      List.length_nil, a8]
                    simp [emptyForce, hae]
                  · rw [k8, a11]
                    simp [emptyForce, List.append_assoc]
                  · rw [k11]
                    simp [a8, a10, emptyForce, hae, List.map_append,
                      List.append_assoc]

theorem update_restraints_mem_distance (tk : Tracker) (alpha : ℚ)
    (timestep : ℕ) (i : ℕ) (r : _)
    (h : tk.distance_restraints[i]? = some r) :
    EngineCall.modifyRestraint .distance i (distModifyParams r alpha timestep) ∈
      update_restraints tk alpha timestep := by
  have hm := mem_map_enum_of_getElem?
    (fun p => EngineCall.modifyRestraint .distance p.1
      (distModifyParams p.2 alpha timestep)) h
  unfold update_restraints
  exact List.mem_append_left _ (List.mem_append_left _ (List.mem_append_left _ (List.mem_append_left _ (List.mem_append_left _ hm))))

theorem update_restraints_mem_hyperbolic (tk : Tracker) (alpha : ℚ)
    (timestep : ℕ) (i : ℕ) (r : _)
    (h : tk.hyperbolic_distance_restraints[i]? = some r) :
    EngineCall.modifyRestraint .hyperbolic i (hyperModifyParams r alpha timestep) ∈
      update_restraints tk alpha timestep := by
  have hm := mem_map_enum_of_getElem?
    (fun p => EngineCall.modifyRestraint .hyperbolic p.1
      (hyperModifyParams p.2 alpha timestep)) h
  unfold update_restraints
  exact List.mem_append_left _ (List.mem_append_left _ (List.mem_append_left _ (List.mem_append_left _ (List.mem_append_right _ hm))))

theorem update_restraints_mem_torsion (tk : Tracker) (alpha : ℚ)
    (timestep : ℕ) (i : ℕ) (r : _)
    (h : tk.torsion_restraints[i]? = some r) :
    EngineCall.modifyRestraint .torsion i (torsModifyParams r alpha timestep) ∈
      update_restraints tk alpha timestep := by
  have hm := mem_map_enum_of_getElem?
    (fun p => EngineCall.modifyRestraint .torsion p.1
      (torsModifyParams p.2 alpha timestep)) h
  unfold update_restraints
  exact List.mem_append_left _ (List.mem_append_left _ (List.mem_append_left _ (List.mem_append_right _ hm)))

theorem update_restraints_mem_distProf (tk : Tracker) (alpha : ℚ)
    (timestep : ℕ) (i : ℕ) (r : _)
    (h : tk.dist_prof_restraints[i]? = some r) :
    EngineCall.modifyRestraint .distProf i (distProfModifyParams r alpha timestep) ∈
      update_restraints tk alpha timestep := by
  have hm := mem_map_enum_of_getElem?
    (fun p => EngineCall.modifyRestraint .distProf p.1
      (distProfModifyParams p.2 alpha timestep)) h
  unfold update_restraints
  exact List.mem_append_left _ (List.mem_append_left _ (List.mem_append_right _ hm))

theorem update_restraints_mem_torsProf (tk : Tracker) (alpha : ℚ)
    (timestep : ℕ) (i : ℕ) (r : _)
    (h : tk.torsion_profile_restraints[i]? = some r) :
    EngineCall.modifyRestraint .torsProf i (torsProfModifyParams r alpha timestep) ∈
      update_restraints tk alpha timestep := by
  have hm := mem_map_enum_of_getElem?
    (fun p => EngineCall.modifyRestraint .torsProf p.1
      (torsProfModifyParams p.2 alpha timestep)) h
  unfold update_restraints
  exact List.mem_append_left _ (List.mem_append_right _ hm)

theorem update_restraints_mem_gmm (tk : Tracker) (alpha : ℚ)
    (timestep : ℕ) (i : ℕ) (r : _)
    (h : tk.gmm_restraints[i]? = some r) :
    EngineCall.modifyRestraint .gmm i (gmmModifyParams r alpha timestep) ∈
      update_restraints tk alpha timestep := by
  have hm := mem_map_enum_of_getElem?
    (fun p => EngineCall.modifyRestraint .gmm p.1
      (gmmModifyParams p.2 alpha timestep)) h
  unfold update_restraints
  exact List.mem_append_right _ hm

theorem update_groups_collections_mem_group (pm : ParamManager)
    (tk : Tracker) (st : SimState) (i : ℕ) (g : RestraintGroup)
    (h : tk.groups[i]? = some (some g)) :
    EngineCall.modifyGroupNumActive i
        (handle_num_active pm g.num_active st) ∈
      update_groups_collections pm tk st := by
  unfold update_groups_collections
  refine List.mem_append_right _ (List.mem_filterMap.2 ⟨(i, some g), ?_, ?_⟩)
  · exact List.mk_mem_enum_iff_getElem?.2 h
  · simp

theorem update_groups_collections_mem_collection (pm : ParamManager)
    (tk : Tracker) (st : SimState) (i : ℕ) (c : SelectivelyActiveCollection)
    (h : tk.collections[i]? = some (some c)) :
    EngineCall.modifyCollectionNumActive i
        (handle_num_active pm c.num_active st) ∈
      update_groups_collections pm tk st := by
  unfold update_groups_collections
  refine List.mem_append_left _ (List.mem_filterMap.2 ⟨(i, some c), ?_, ?_⟩)
  · exact List.mk_mem_enum_iff_getElem?.2 h
  · simp

/-- C10: `add_interactions` registers every restraint — always-active and
selectively active alike — at `(alpha, timestep) = (0, 0)`: each kind's
creation list in the built force equals the `...AddParams` lists at
`(0, 0)` over the registration order, an expression independent of the
simulation state; accordingly two calls on different states build the same
per-kind creation lists. -/
theorem add_interactions_registers_at_zero (tr : MeldRestraintTransformer)
    (st st2 : SimState) (sys sys2 : MMSystem)
    (out out2 : MeldRestraintTransformer × MMSystem)
    (ha : tr.active = true)
    (h : add_interactions tr st sys = .ok out)
    (h2 : add_interactions tr st2 sys2 = .ok out2) :
    (out.1.force.distance =
      ((regOrder tr).filterMap distOf).map fun r => distAddParams r 0 0) ∧
    (out.1.force.hyperbolic =
      ((regOrder tr).filterMap hyperOf).map fun r => hyperAddParams r 0 0) ∧
    (out.1.force.torsion =
      ((regOrder tr).filterMap torsOf).map fun r => torsAddParams r 0 0) ∧
    (out.1.force.distProf =
      ((regOrder tr).filterMap distProfOf).map fun r => distProfAddParams r 0 0) ∧
    (out.1.force.torsProf =
      ((regOrder tr).filterMap torsProfOf).map fun r => torsProfAddParams r 0 0) ∧
    (out.1.force.gmm =
      ((regOrder tr).filterMap gmmOf).map fun r => gmmAddParams r 0 0) ∧
    out.1.force.distance = out2.1.force.distance ∧
    out.1.force.hyperbolic = out2.1.force.hyperbolic ∧
    out.1.force.torsion = out2.1.force.torsion ∧
    out.1.force.distProf = out2.1.force.distProf ∧
    out.1.force.torsProf = out2.1.force.torsProf ∧
    out.1.force.gmm = out2.1.force.gmm := by
  obtain ⟨_, b2, b3, b4, b5, b6, b7, _, _, _, _, _, _, _⟩ :=
    add_interactions_ok tr st sys out ha h
  obtain ⟨_, c2, c3, c4, c5, c6, c7, _, _, _, _, _, _, _⟩ :=
    add_interactions_ok tr st2 sys2 out2 ha h2
  exact ⟨b2, b3, b4, b5, b6, b7, b2.trans c2.symm, b3.trans c3.symm,
    b4.trans c4.symm, b5.trans c5.symm, b6.trans c6.symm, b7.trans c7.symm⟩

/-- C10 witness: the end-to-end transformer `trE` at two different states
builds the same creation lists, all at `(0, 0)`. -/
theorem add_interactions_registers_at_zero_witness :
    trE.active = true ∧
    add_interactions trE s0 sys0 =
      .ok (exceptOr (trE, sys0) (add_interactions trE s0 sys0)) ∧
    add_interactions trE s1 sys0 =
      .ok (exceptOr (trE, sys0) (add_interactions trE s1 sys0)) ∧
    ((exceptOr (trE, sys0) (add_interactions trE s0 sys0)).1.force.distance =
      ((regOrder trE).filterMap distOf).map fun r => distAddParams r 0 0) ∧
    (exceptOr (trE, sys0) (add_interactions trE s0 sys0)).1.force.torsion =
      (exceptOr (trE, sys0) (add_interactions trE s1 sys0)).1.force.torsion :=
  ⟨rfl, rfl, rfl,
   (add_interactions_registers_at_zero trE s0 s1 sys0 sys0
     (exceptOr (trE, sys0) (add_interactions trE s0 sys0))
     (exceptOr (trE, sys0) (add_interactions trE s1 sys0)) rfl rfl rfl).1,
   (add_interactions_registers_at_zero trE s0 s1 sys0 sys0
     (exceptOr (trE, sys0) (add_interactions trE s0 sys0))
     (exceptOr (trE, sys0) (add_interactions trE s1 sys0))
     rfl rfl rfl).2.2.2.2.2.2.2.2.1⟩

/-- C9: after `add_interactions` on a freshly configured transformer, the
`i`-th element of each kind's tracker sequence is exactly the `i`-th
restraint of that kind in registration order, the engine's `i`-th creation
parameter list for that kind is that restraint's parameter list, and the
per-step refresh addressed at engine index `i` carries exactly the tracked
restraint at position `i`.  The same positional invariant holds for the
group and collection sequences: tracker and engine sequences have matching
lengths, the tracker sequences are the creation-order sequences (sentinels
for the always-on prefix, then the selective groups/collections in order),
the engine's `i`-th group entry carries exactly the resolution of the
tracker's `i`-th group entry (1 for a sentinel), the engine's collection
entries carry the sentinel count followed by the per-collection created
values in order, and the per-step group/collection refresh addressed at
index `i` carries the resolution of the tracker entry at position `i`. -/
theorem tracker_positions_match_creation_order (tr : MeldRestraintTransformer)
    (st : SimState) (sys : MMSystem)
    (out : MeldRestraintTransformer × MMSystem)
    (ha : tr.active = true) (htk : tr.tracker = emptyTracker)
    (h : add_interactions tr st sys = .ok out) :
    (out.1.tracker.distance_restraints = (regOrder tr).filterMap distOf) ∧
    (out.1.tracker.hyperbolic_distance_restraints =
      (regOrder tr).filterMap hyperOf) ∧
    (out.1.tracker.torsion_restraints = (regOrder tr).filterMap torsOf) ∧
    (out.1.tracker.dist_prof_restraints =
      (regOrder tr).filterMap distProfOf) ∧
    (out.1.tracker.torsion_profile_restraints =
      (regOrder tr).filterMap torsProfOf) ∧
    (out.1.tracker.gmm_restraints = (regOrder tr).filterMap gmmOf) ∧
    (out.1.force.distance =
      out.1.tracker.distance_restraints.map fun r => distAddParams r 0 0) ∧
    (out.1.force.hyperbolic =
      out.1.tracker.hyperbolic_distance_restraints.map
        fun r => hyperAddParams r 0 0) ∧
    (out.1.force.torsion =
      out.1.tracker.torsion_restraints.map fun r => torsAddParams r 0 0) ∧
    (out.1.force.distProf =
      out.1.tracker.dist_prof_restraints.map
        fun r => distProfAddParams r 0 0) ∧
    (out.1.force.torsProf =
      out.1.tracker.torsion_profile_restraints.map
        fun r => torsProfAddParams r 0 0) ∧
    (out.1.force.gmm =
      out.1.tracker.gmm_restraints.map fun r => gmmAddParams r 0 0) ∧
    out.1.force.groups.length = out.1.tracker.groups.length ∧
    out.1.force.collections.length = out.1.tracker.collections.length ∧
    (∀ i r, out.1.tracker.distance_restraints[i]? = some r →
      ∀ alpha timestep,
        EngineCall.modifyRestraint .distance i
          (distModifyParams r alpha timestep) ∈
          update_restraints out.1.tracker alpha timestep) ∧
    (∀ i r, out.1.tracker.hyperbolic_distance_restraints[i]? = some r →
      ∀ alpha timestep,
        EngineCall.modifyRestraint .hyperbolic i
          (hyperModifyParams r alpha timestep) ∈
          update_restraints out.1.tracker alpha timestep) ∧
    (∀ i r, out.1.tracker.torsion_restraints[i]? = some r →
      ∀ alpha timestep,
        EngineCall.modifyRestraint .torsion i
          (torsModifyParams r alpha timestep) ∈
          update_restraints out.1.tracker alpha timestep) ∧
    (∀ i r, out.1.tracker.dist_prof_restraints[i]? = some r →
      ∀ alpha timestep,
        EngineCall.modifyRestraint .distProf i
          (distProfModifyParams r alpha timestep) ∈
          update_restraints out.1.tracker alpha timestep) ∧
    (∀ i r, out.1.tracker.torsion_profile_restraints[i]? = some r →
      ∀ alpha timestep,
        EngineCall.modifyRestraint .torsProf i
          (torsProfModifyParams r alpha timestep) ∈
          update_restraints out.1.tracker alpha timestep) ∧
    (∀ i r, out.1.tracker.gmm_restraints[i]? = some r →
      ∀ alpha timestep,
        EngineCall.modifyRestraint .gmm i
          (gmmModifyParams r alpha timestep) ∈
          update_restraints out.1.tracker alpha timestep) ∧
    out.1.tracker.groups = List.replicate tr.always_on.length none ++
      (tr.selective_on.flatMap fun c => c.groups).map some ∧
    out.1.tracker.collections =
      (if tr.always_on.isEmpty then [] else [none]) ++
        tr.selective_on.map some ∧
    out.1.force.groups.map Prod.snd = out.1.tracker.groups.map
      (fun og => match og with
        | none => (1 : ℤ)
        | some g => handle_num_active tr.param_manager g.num_active st) ∧
    out.1.force.collections.map Prod.snd =
      (if tr.always_on.isEmpty then [] else [(tr.always_on.length : ℤ)]) ++
        leakedVals tr.param_manager st none tr.selective_on ∧
    (∀ i g, out.1.tracker.groups[i]? = some (some g) → ∀ st' : SimState,
      EngineCall.modifyGroupNumActive i
          (handle_num_active out.1.param_manager g.num_active st') ∈
        update_groups_collections out.1.param_manager out.1.tracker st') ∧
    (∀ i c, out.1.tracker.collections[i]? = some (some c) →
      ∀ st' : SimState,
        EngineCall.modifyCollectionNumActive i
            (handle_num_active out.1.param_manager c.num_active st') ∈
          update_groups_collections out.1.param_manager out.1.tracker st') := by
  obtain ⟨b1, b2, b3, b4, b5, b6, b7, b8, b9, _, _, _, _, _, b15, b16⟩ :=
    add_interactions_ok tr st sys out ha h
  have t1 : out.1.tracker.distance_restraints = (regOrder tr).filterMap distOf := by
    rw [b1, htk]
    simp [regTracker, emptyTracker]
  have t2 : out.1.tracker.hyperbolic_distance_restraints =
      (regOrder tr).filterMap hyperOf := by
    rw [b1, htk]
    simp [regTracker, emptyTracker]
  have t3 : out.1.tracker.torsion_restraints = (regOrder tr).filterMap torsOf := by
    rw [b1, htk]
    simp [regTracker, emptyTracker]
  have t4 : out.1.tracker.dist_prof_restraints =
      (regOrder tr).filterMap distProfOf := by
    rw [b1, htk]
    simp [regTracker, emptyTracker]
  have t5 : out.1.tracker.torsion_profile_restraints =
      (regOrder tr).filterMap torsProfOf := by
    rw [b1, htk]
    simp [regTracker, emptyTracker]
  have t6 : out.1.tracker.gmm_restraints = (regOrder tr).filterMap gmmOf := by
    rw [b1, htk]
    simp [regTracker, emptyTracker]
  have t21 : out.1.tracker.groups =
      List.replicate tr.always_on.length none ++
        (tr.selective_on.flatMap fun c => c.groups).map some := by
    rw [b1, htk]
    simp [emptyTracker]
  have t22 : out.1.tracker.collections =
      (if tr.always_on.isEmpty then [] else [none]) ++
        tr.selective_on.map some := by
    rw [b1, htk]
    simp [emptyTracker]
  refine ⟨t1, t2, t3, t4, t5, t6,
    by rw [b2, t1], by rw [b3, t2], by rw [b4, t3], by rw [b5, t4],
    by rw [b6, t5], by rw [b7, t6], ?_, ?_,
    fun i r hir alpha timestep =>
      update_restraints_mem_distance _ alpha timestep i r hir,
    fun i r hir alpha timestep =>
      update_restraints_mem_hyperbolic _ alpha timestep i r hir,
    fun i r hir alpha timestep =>
      update_restraints_mem_torsion _ alpha timestep i r hir,
    fun i r hir alpha timestep =>
      update_restraints_mem_distProf _ alpha timestep i r hir,
    fun i r hir alpha timestep =>
      update_restraints_mem_torsProf _ alpha timestep i r hir,
    fun i r hir alpha timestep =>
      update_restraints_mem_gmm _ alpha timestep i r hir,
    t21, t22, ?_, b16,
    fun i g hig st' =>
      update_groups_collections_mem_group _ _ st' i g hig,
    fun i c hic st' =>
      update_groups_collections_mem_collection _ _ st' i c hic⟩
  · rw [b8, b1, htk]
    simp [regTracker, emptyTracker]
  · rw [b9, b1, htk]
    cases hae : tr.always_on.isEmpty <;>
      simp [hae, regTracker, emptyTracker] <;> omega
  · rw [b15, t21]
    simp [List.map_append, List.map_map, List.map_replicate, Function.comp]

/-- C9 witness: for the end-to-end transformer `trE`, the tracker torsion
sequence is the two torsion registrations in order, the refresh at index 0
carries the tracked torsion restraint, the tracker group sequence holds
the updatable group `gE` at position 1 (after the sentinel), and the
group refresh addressed at index 1 carries that entry's resolution. -/
theorem tracker_positions_match_creation_order_witness :
    trE.active = true ∧
    trE.tracker = emptyTracker ∧
    add_interactions trE s0 sys0 =
      .ok (exceptOr (trE, sys0) (add_interactions trE s0 sys0)) ∧
    ((exceptOr (trE, sys0)
        (add_interactions trE s0 sys0)).1.tracker.torsion_restraints =
      (regOrder trE).filterMap torsOf) ∧
    (exceptOr (trE, sys0)
        (add_interactions trE s0 sys0)).1.tracker.torsion_restraints[0]? =
      some t0 ∧
    EngineCall.modifyRestraint .torsion 0 (torsModifyParams t0 1 3) ∈
      update_restraints
        (exceptOr (trE, sys0) (add_interactions trE s0 sys0)).1.tracker 1 3 ∧
    (exceptOr (trE, sys0)
        (add_interactions trE s0 sys0)).1.tracker.groups[1]? =
      some (some gE) ∧
    EngineCall.modifyGroupNumActive 1
        (handle_num_active (exceptOr (trE, sys0)
            (add_interactions trE s0 sys0)).1.param_manager
          gE.num_active s1) ∈
      update_groups_collections
        (exceptOr (trE, sys0) (add_interactions trE s0 sys0)).1.param_manager
        (exceptOr (trE, sys0) (add_interactions trE s0 sys0)).1.tracker s1 := by
  have H := tracker_positions_match_creation_order trE s0 sys0
    (exceptOr (trE, sys0) (add_interactions trE s0 sys0)) rfl rfl rfl
  obtain ⟨c1, c2, c3, c4, c5, c6, c7, c8, c9, c10, c11, c12, c13, c14,
    c15, c16, c17, c18, c19, c20, c21, c22, c23, c24, c25, c26⟩ := H
  exact ⟨rfl, rfl, rfl, c3, rfl, c17 0 t0 rfl 1 3, rfl, c25 1 gE rfl s1⟩
